import Mathlib

/-!
# OneIDP — verification of the authorization state machine against its source

Shallow embedding of the OneIDP identity provider (Python/FastAPI backend):
the durable store (`database/models.py`, `database/crud.py`), the OAuth
provider helpers (`oauth/provider.py`), the HTTP endpoints
(`page/oauth_routes.py`, `page/routes.py`), the chat-command handlers
(`bot/handlers.py`), and the security helpers (`utils/security.py`).

Conventions of the embedding:
* `datetime.utcnow()` values are modelled as integers (a totally ordered
  clock); every function that reads the clock takes a `now : Int` argument.
* Database tables are lists of rows; SQLAlchemy `select ... where` becomes
  `List.find?` over the row predicate (all lookups in the source use
  `scalar_one_or_none` on unique keys), and `update ... where` becomes a
  `List.map` guarded by the same `where` predicate, returning the affected
  row count exactly as `result.rowcount` does.
* Randomness (`secrets.token_urlsafe`, `secrets.choice`) is modelled by
  passing the freshly drawn values as explicit arguments.
* `secrets.compare_digest` on strings is modelled as string equality (the
  constant-time property itself is a timing property outside the embedding).
* Python bytes are `List Nat` with every element `< 256`; `str.encode("ascii")`
  is the codepoint map (exact for the ASCII inputs the protocol uses).
-/

namespace OneIDP

/-! ## 32-bit primitives for SHA-256 (`hashlib.sha256`)

`hashlib.sha256` is the standard FIPS 180-4 SHA-256; it is embedded
executably so that the PKCE S256 check can be evaluated on concrete
test vectors.  Words are `Nat` kept below `2 ^ 32`; the bitwise
operations recurse on an explicit 32-bit fuel so that the kernel can
evaluate them. -/

/-- Bitwise XOR of the low `fuel` bits. -/
def xorAux : Nat → Nat → Nat → Nat
  | 0, _, _ => 0
  | fuel + 1, a, b =>
      (if a % 2 ≠ b % 2 then 1 else 0) + 2 * xorAux fuel (a / 2) (b / 2)

/-- Bitwise AND of the low `fuel` bits. -/
def andAux : Nat → Nat → Nat → Nat
  | 0, _, _ => 0
  | fuel + 1, a, b =>
      (if a % 2 = 1 ∧ b % 2 = 1 then 1 else 0) + 2 * andAux fuel (a / 2) (b / 2)

/-- 32-bit XOR. -/
def xor32 (a b : Nat) : Nat := xorAux 32 a b

/-- 32-bit AND. -/
def and32 (a b : Nat) : Nat := andAux 32 a b

/-- 32-bit complement. -/
def not32 (a : Nat) : Nat := (2 ^ 32 - 1) - a % 2 ^ 32

/-- Addition modulo `2 ^ 32`. -/
def add32 (a b : Nat) : Nat := (a + b) % 2 ^ 32

/-- Right rotation of a 32-bit word by `n` places. -/
def rotr32 (n a : Nat) : Nat := a / 2 ^ n + a % 2 ^ n * 2 ^ (32 - n)

/-- Logical right shift. -/
def shr32 (n a : Nat) : Nat := a / 2 ^ n

/-- SHA-256 small sigma 0. -/
def ssig0 (x : Nat) : Nat := xor32 (xor32 (rotr32 7 x) (rotr32 18 x)) (shr32 3 x)

/-- SHA-256 small sigma 1. -/
def ssig1 (x : Nat) : Nat := xor32 (xor32 (rotr32 17 x) (rotr32 19 x)) (shr32 10 x)

/-- SHA-256 big sigma 0. -/
def bsig0 (x : Nat) : Nat := xor32 (xor32 (rotr32 2 x) (rotr32 13 x)) (rotr32 22 x)

/-- SHA-256 big sigma 1. -/
def bsig1 (x : Nat) : Nat := xor32 (xor32 (rotr32 6 x) (rotr32 11 x)) (rotr32 25 x)

/-- SHA-256 choice function. -/
def chF (e f g : Nat) : Nat := xor32 (and32 e f) (and32 (not32 e) g)

/-- SHA-256 majority function. -/
def majF (a b c : Nat) : Nat := xor32 (xor32 (and32 a b) (and32 a c)) (and32 b c)

/-- The 64 SHA-256 round constants (FIPS 180-4 §4.2.2, in decimal). -/
def sha256K : List Nat :=
  [1116352408, 1899447441, 3049323471, 3921009573, 961987163,
   1508970993, 2453635748, 2870763221, 3624381080, 310598401,
   607225278, 1426881987, 1925078388, 2162078206, 2614888103,
   3248222580, 3835390401, 4022224774, 264347078, 604807628,
   770255983, 1249150122, 1555081692, 1996064986, 2554220882,
   2821834349, 2952996808, 3210313671, 3336571891, 3584528711,
   113926993, 338241895, 666307205, 773529912, 1294757372,
   1396182291, 1695183700, 1986661051, 2177026350, 2456956037,
   2730485921, 2820302411, 3259730800, 3345764771, 3516065817,
   3600352804, 4094571909, 275423344, 430227734, 506948616,
   659060556, 883997877, 958139571, 1322822218, 1537002063,
   1747873779, 1955562222, 2024104815, 2227730452, 2361852424,
   2428436474, 2756734187, 3204031479, 3329325298]

/-- The SHA-256 initial hash value (FIPS 180-4 §5.3.3, in decimal). -/
def sha256H0 : List Nat :=
  [1779033703, 3144134277, 1013904242, 2773480762,
   1359893119, 2600822924, 528734635, 1541459225]

/-- Big-endian 32-bit words from a byte list (length a multiple of 4). -/
def bytesToWords : List Nat → List Nat
  | a :: b :: c :: d :: rest => (((a * 256 + b) * 256 + c) * 256 + d) :: bytesToWords rest
  | _ => []

/-- Big-endian bytes of one 32-bit word. -/
def wordToBytes (w : Nat) : List Nat :=
  [w / 2 ^ 24 % 256, w / 2 ^ 16 % 256, w / 2 ^ 8 % 256, w % 256]

/-- The 8-byte big-endian encoding of the message bit length. -/
def lenBytes64 (n : Nat) : List Nat :=
  [n / 2 ^ 56 % 256, n / 2 ^ 48 % 256, n / 2 ^ 40 % 256, n / 2 ^ 32 % 256,
   n / 2 ^ 24 % 256, n / 2 ^ 16 % 256, n / 2 ^ 8 % 256, n % 256]

/-- FIPS 180-4 padding: append `0x80`, zeros, and the 64-bit bit length. -/
def sha256Pad (msg : List Nat) : List Nat :=
  msg ++ 0x80 :: List.replicate ((64 - (msg.length + 9) % 64) % 64) 0
      ++ lenBytes64 (8 * msg.length)

/-- Extend the 16 block words to the 64-entry message schedule; the
accumulator holds the schedule produced so far in reverse order. -/
def scheduleAux : Nat → List Nat → List Nat
  | 0, acc => acc
  | fuel + 1, acc =>
      let w := add32 (add32 (ssig1 (acc.getD 1 0)) (acc.getD 6 0))
                     (add32 (ssig0 (acc.getD 14 0)) (acc.getD 15 0))
      scheduleAux fuel (w :: acc)

/-- The 64-word message schedule of one block. -/
def sha256Schedule (block : List Nat) : List Nat :=
  (scheduleAux 48 block.reverse).reverse

/-- One compression round: state `[a,b,c,d,e,f,g,h]`, round constant and
schedule word. -/
def sha256Round (st : List Nat) (kw : Nat × Nat) : List Nat :=
  match st with
  | [a, b, c, d, e, f, g, h] =>
      let t1 := add32 h (add32 (bsig1 e) (add32 (chF e f g) (add32 kw.1 kw.2)))
      let t2 := add32 (bsig0 a) (majF a b c)
      [add32 t1 t2, a, b, c, add32 d t1, e, f, g]
  | st => st

/-- Compress one 16-word block into the running hash. -/
def sha256Compress (h : List Nat) (block : List Nat) : List Nat :=
  let fin := (List.zip sha256K (sha256Schedule block)).foldl sha256Round h
  List.zipWith add32 h fin

/-- Fold the blocks (given as a flat word list) into the hash; `fuel` is the
number of 16-word blocks. -/
def sha256Blocks : Nat → List Nat → List Nat → List Nat
  | 0, _, h => h
  | fuel + 1, ws, h => sha256Blocks fuel (ws.drop 16) (sha256Compress h (ws.take 16))

/-- SHA-256 digest (32 bytes) of a byte string — `hashlib.sha256(x).digest()`. -/
def sha256 (msg : List Nat) : List Nat :=
  let ws := bytesToWords (sha256Pad msg)
  (sha256Blocks (ws.length / 16) ws sha256H0).flatMap wordToBytes

/-! ## base64url (`base64.urlsafe_b64encode(...).rstrip(b"=")`) -/

/-- The base64url alphabet. -/
def b64Alphabet : List Char :=
  "ABCDEFGHIJKLMNOPQRSTUVWXYZabcdefghijklmnopqrstuvwxyz0123456789-_".data

/-- Character for one 6-bit group. -/
def b64Char (n : Nat) : Char := b64Alphabet.getD n 'A'

/-- Unpadded base64url character stream: `urlsafe_b64encode` followed by
stripping the `=` padding, fused (the final 1- and 2-byte groups emit the
2 resp. 3 data characters the padded encoding would keep). -/
def b64urlChars : List Nat → List Char
  | a :: b :: c :: rest =>
      b64Char (a / 4) :: b64Char (a % 4 * 16 + b / 16) ::
      b64Char (b % 16 * 4 + c / 64) :: b64Char (c % 64) :: b64urlChars rest
  | [a, b] => [b64Char (a / 4), b64Char (a % 4 * 16 + b / 16), b64Char (b % 16 * 4)]
  | [a] => [b64Char (a / 4), b64Char (a % 4 * 16)]
  | [] => []

/-- `base64.urlsafe_b64encode(bs).rstrip(b"=")`, decoded to a string. -/
def b64urlNoPad (bs : List Nat) : String := String.mk (b64urlChars bs)

/-- `str.encode("ascii")`: the codepoints of the string (exact on ASCII). -/
def asciiBytes (s : String) : List Nat := s.data.map Char.toNat

/-! ## Python value and dict model

`extra_data` columns and the `user_data` dictionaries built by the routes
are Python dicts; values are modelled by `Val`, dicts by association lists
with last-write-wins assignment. -/

mutual
/-- A Python/JSON value as it occurs in `extra_data` and claim dicts. -/
inductive Val where
  | vInt : Int → Val
  | vStr : String → Val
  | vBool : Bool → Val
  | vNone : Val
  | vDict : ValEntries → Val
deriving DecidableEq, Repr

/-- The entries of a nested dict value (a cons-list, mutual with `Val`). -/
inductive ValEntries where
  | nil : ValEntries
  | cons : String → Val → ValEntries → ValEntries
deriving DecidableEq, Repr
end

/-- Nested dict entries as an association list. -/
def ValEntries.toList : ValEntries → List (String × Val)
  | .nil => []
  | .cons k v r => (k, v) :: r.toList

/-- A Python dict. -/
abbrev Dict := List (String × Val)

/-- `d[k]` lookup; `none` when the key is absent. -/
def dget (d : Dict) (k : String) : Option Val := (d.find? (·.1 == k)).map (·.2)

/-- `d.get(k)` — Python's `.get` with its `None` default. -/
def dgetD (d : Dict) (k : String) : Val := (dget d k).getD Val.vNone

/-- `k in d`. -/
def dmem (d : Dict) (k : String) : Bool := d.any (·.1 == k)

/-- `d[k] = v`: overwrite in place, else append. -/
def dset (d : Dict) (k : String) (v : Val) : Dict :=
  if dmem d k then d.map (fun p => if p.1 == k then (k, v) else p) else d ++ [(k, v)]

/-- `d.update(e)`. -/
def dupdate (d e : Dict) : Dict := e.foldl (fun acc p => dset acc p.1 p.2) d

/-- Python truthiness of a `Val`. -/
def pyTruthy : Val → Bool
  | .vInt n => n ≠ 0
  | .vStr s => s ≠ ""
  | .vBool b => b
  | .vNone => false
  | .vDict d => !d.toList.isEmpty

/-- Python `str(...)` of a `Val` (only the cases the code reaches). -/
def pyStr : Val → String
  | .vInt n => toString n
  | .vStr s => s
  | .vBool b => if b then "True" else "False"
  | .vNone => "None"
  | .vDict _ => ""

/-- Truthiness of an `Optional[str]`: `None` and `""` are falsy. -/
def pyTruthyS : Option String → Bool
  | some s => s ≠ ""
  | none => false

/-- Python `a or b` on an optional string against a string fallback:
used for `preferred_username or email or sub` style coalescing. -/
def pyOrStr (a : Option String) (b : String) : String :=
  match a with
  | some s => if s = "" then b else s
  | none => b

/-- Cut a character list at every whitespace character (producing empty
pieces for adjacent separators). -/
def splitWsAux : List Char → List Char → List String
  | [], acc => [String.mk acc.reverse]
  | c :: rest, acc =>
      if c.isWhitespace then String.mk acc.reverse :: splitWsAux rest []
      else splitWsAux rest (c :: acc)

/-- Python `str.split()` (split on whitespace runs, no empty tokens). -/
def pySplit (s : String) : List String :=
  (splitWsAux s.data []).filter (· ≠ "")

/-- Python `str.upper()` (exact on the ASCII data the protocol uses). -/
def pyUpper (s : String) : String := String.mk (s.data.map Char.toUpper)

/-- Python `str.lower()` (exact on the ASCII data the protocol uses). -/
def pyLower (s : String) : String := String.mk (s.data.map Char.toLower)

/-- Python `str.startswith`. -/
def pyStartsWith (s pre : String) : Bool := pre.data.isPrefixOf s.data

/-- Python slicing `s[n:]` (by character). -/
def pyDrop (s : String) (n : Nat) : String := String.mk (s.data.drop n)

/-- Python slicing `s[:n]` (by character). -/
def pyTake (s : String) (n : Nat) : String := String.mk (s.data.take n)

/-! ## Data model (`database/models.py`)

Rows are structures named after the SQLAlchemy models; timestamps are the
integer clock.  `uin` is `BigInteger` in the source, hence `Int` here.
The unique indexes declared in `models.py` (`bind_user.uin`,
`bind_user.sub`, `pending_bind.state`, `pending_auth.verification_code`,
`pending_auth.auth_code`, `oauth_token.access_token`,
`oauth_token.refresh_token`) are reflected where a verified claim depends
on them: the `bind_user` constraints are enforced by `create_bind_user`
(C10 is about exactly that), the others appear as uniqueness hypotheses
or freshness hypotheses on the randomly drawn codes. -/

/-- `models.BindUser`. -/
structure BindUser where
  id : Nat
  uin : Int
  sub : String
  email : Option String
  preferred_username : Option String
  extra_data : Option Dict
  bind_time : Int
  is_active : Bool
deriving DecidableEq, Repr

/-- `models.PendingBind`. -/
structure PendingBind where
  id : Nat
  state : String
  uin : Int
  username : String
  created_at : Int
  expires_at : Int
  is_used : Bool
  source_type : String
  source_id : Int
deriving DecidableEq, Repr

/-- `models.PendingAuth`. -/
structure PendingAuth where
  id : Nat
  verification_code : String
  auth_code : String
  client_id : String
  redirect_uri : String
  scope : String
  state : Option String
  code_challenge : Option String
  code_challenge_method : Option String
  bind_user_id : Nat
  uin : Int
  created_at : Int
  expires_at : Int
  is_approved : Bool
  is_used : Bool
  client_ip : Option String
  user_agent : Option String
deriving DecidableEq, Repr

/-- `models.PendingUnbind`. -/
structure PendingUnbind where
  id : Nat
  uin : Int
  username : String
  bind_user_id : Nat
  created_at : Int
  expires_at : Int
  is_processed : Bool
  source_type : String
  source_id : Int
deriving DecidableEq, Repr

/-- `models.OAuthToken`. -/
structure OAuthToken where
  id : Nat
  access_token : String
  refresh_token : Option String
  token_type : String
  client_id : String
  bind_user_id : Nat
  uin : Int
  scope : String
  created_at : Int
  access_token_expires_at : Int
  refresh_token_expires_at : Option Int
  is_revoked : Bool
deriving DecidableEq, Repr

/-- `models.AuthorizationLog` (append-only audit). -/
structure AuthorizationLog where
  id : Nat
  uin : Int
  client_id : String
  address : String
  scope : String
  authorization_time : Int
  is_success : Bool
  client_ip : Option String
  user_agent : Option String
deriving DecidableEq, Repr

/-- `models.UnbindLog` (append-only audit). -/
structure UnbindLog where
  id : Nat
  uin : Int
  unbind_user : String
  sub : String
  bind_time : Int
  unbind_request_time : Int
  unbind_time : Option Int
  is_unbind : Bool
  reason : Option String
deriving DecidableEq, Repr

/-- The whole relational store, one list per table. -/
structure DB where
  bind_users : List BindUser
  pending_binds : List PendingBind
  pending_auths : List PendingAuth
  pending_unbinds : List PendingUnbind
  oauth_tokens : List OAuthToken
  authorization_logs : List AuthorizationLog
  unbind_logs : List UnbindLog
deriving DecidableEq, Repr

/-- The empty store. -/
def DB.empty : DB := ⟨[], [], [], [], [], [], []⟩

/-- Autoincrement ids: one more than the largest id in the table. -/
def nextId (ids : List Nat) : Nat := ids.foldl max 0 + 1

/-! ## Store operations (`database/crud.py`)

Each function mirrors one `crud.py` function.  `select ... where` with
`scalar_one_or_none` on a (unique-indexed) key becomes `List.find?`;
`update ... where` becomes a guarded `List.map` paired with the
`rowcount > 0` boolean the source returns.  Functions that call
`datetime.utcnow()` take `now`. -/

/-- `crud.get_bind_user_by_uin`. -/
def get_bind_user_by_uin (db : DB) (uin : Int) (active_only : Bool := true) :
    Option BindUser :=
  db.bind_users.find? fun u => u.uin == uin && (!active_only || u.is_active)

/-- `crud.get_bind_user_by_sub`. -/
def get_bind_user_by_sub (db : DB) (sub : String) (active_only : Bool := true) :
    Option BindUser :=
  db.bind_users.find? fun u => u.sub == sub && (!active_only || u.is_active)

/-- `crud.create_bind_user`: inserts with `is_active=True`.  The insert
hits the table's unconditional unique indexes on `uin` and on `sub`
(`models.py` lines 22 and 24: `unique=True`, not filtered by
`is_active`), so it raises — modelled as `Except.error` — whenever any
row, active or not, already carries the same `uin` or `sub`. -/
def create_bind_user (db : DB) (now : Int) (uin : Int) (sub : String)
    (email : Option String := none) (preferred_username : Option String := none)
    (extra_data : Option Dict := none) : Except Unit (DB × BindUser) :=
  if db.bind_users.any (fun r => r.uin == uin || r.sub == sub) then
    .error ()
  else
    let bu : BindUser :=
      { id := nextId (db.bind_users.map (·.id)), uin, sub, email,
        preferred_username, extra_data, bind_time := now, is_active := true }
    .ok ({ db with bind_users := db.bind_users ++ [bu] }, bu)

/-- `crud.deactivate_bind_user`. -/
def deactivate_bind_user (db : DB) (bind_user_id : Nat) : Bool × DB :=
  (db.bind_users.any (·.id == bind_user_id),
   { db with bind_users :=
       db.bind_users.map fun u =>
         if u.id == bind_user_id then { u with is_active := false } else u })

/-- `crud.create_pending_bind`. -/
def create_pending_bind (db : DB) (now : Int) (state : String) (uin : Int)
    (username : String) (source_type : String) (source_id : Int)
    (expires_in : Int := 300) : DB × PendingBind :=
  let p : PendingBind :=
    { id := nextId (db.pending_binds.map (·.id)), state, uin, username,
      created_at := now, expires_at := now + expires_in, is_used := false,
      source_type, source_id }
  ({ db with pending_binds := db.pending_binds ++ [p] }, p)

/-- `crud.get_pending_bind_by_state`. -/
def get_pending_bind_by_state (db : DB) (state : String) (now : Int)
    (valid_only : Bool := true) : Option PendingBind :=
  db.pending_binds.find? fun p =>
    p.state == state && (!valid_only || (!p.is_used && decide (now < p.expires_at)))

/-- `crud.mark_pending_bind_used`. -/
def mark_pending_bind_used (db : DB) (pending_id : Nat) : Bool × DB :=
  (db.pending_binds.any (·.id == pending_id),
   { db with pending_binds :=
       db.pending_binds.map fun p =>
         if p.id == pending_id then { p with is_used := true } else p })

/-- `crud.create_pending_auth`. -/
def create_pending_auth (db : DB) (now : Int) (verification_code auth_code : String)
    (client_id redirect_uri scope : String) (bind_user_id : Nat) (uin : Int)
    (state code_challenge code_challenge_method client_ip user_agent : Option String)
    (expires_in : Int := 300) : DB × PendingAuth :=
  let p : PendingAuth :=
    { id := nextId (db.pending_auths.map (·.id)), verification_code, auth_code,
      client_id, redirect_uri, scope, state, code_challenge,
      code_challenge_method, bind_user_id, uin, created_at := now,
      expires_at := now + expires_in, is_approved := false, is_used := false,
      client_ip, user_agent }
  ({ db with pending_auths := db.pending_auths ++ [p] }, p)

/-- `crud.get_pending_auth_by_code`: lookup by verification code; when
`valid_only`, only unused, unapproved, unexpired rows qualify. -/
def get_pending_auth_by_code (db : DB) (verification_code : String) (now : Int)
    (valid_only : Bool := true) : Option PendingAuth :=
  db.pending_auths.find? fun p =>
    p.verification_code == verification_code &&
      (!valid_only || (!p.is_used && !p.is_approved && decide (now < p.expires_at)))

/-- `crud.get_pending_auth_by_auth_code`: lookup by auth code; when
`valid_only`, only approved, unused, unexpired rows qualify. -/
def get_pending_auth_by_auth_code (db : DB) (auth_code : String) (now : Int)
    (valid_only : Bool := true) : Option PendingAuth :=
  db.pending_auths.find? fun p =>
    p.auth_code == auth_code &&
      (!valid_only || (p.is_approved && !p.is_used && decide (now < p.expires_at)))

/-- `crud.approve_pending_auth`: `UPDATE pending_auth SET is_approved=1
WHERE id=?`, returning `rowcount > 0`. -/
def approve_pending_auth (db : DB) (pending_id : Nat) : Bool × DB :=
  (db.pending_auths.any (·.id == pending_id),
   { db with pending_auths :=
       db.pending_auths.map fun p =>
         if p.id == pending_id then { p with is_approved := true } else p })

/-- `crud.mark_pending_auth_used`: `UPDATE pending_auth SET is_used=1
WHERE id=?`, returning `rowcount > 0`.  The `WHERE` clause names only the
primary key — not the prior `is_used` state. -/
def mark_pending_auth_used (db : DB) (pending_id : Nat) : Bool × DB :=
  (db.pending_auths.any (·.id == pending_id),
   { db with pending_auths :=
       db.pending_auths.map fun p =>
         if p.id == pending_id then { p with is_used := true } else p })

/-- `crud.create_pending_unbind`. -/
def create_pending_unbind (db : DB) (now : Int) (uin : Int) (username : String)
    (bind_user_id : Nat) (source_type : String) (source_id : Int)
    (expires_in : Int := 300) : DB × PendingUnbind :=
  let p : PendingUnbind :=
    { id := nextId (db.pending_unbinds.map (·.id)), uin, username, bind_user_id,
      created_at := now, expires_at := now + expires_in, is_processed := false,
      source_type, source_id }
  ({ db with pending_unbinds := db.pending_unbinds ++ [p] }, p)

/-- `crud.get_pending_unbind_by_uin`. -/
def get_pending_unbind_by_uin (db : DB) (uin : Int) (now : Int)
    (valid_only : Bool := true) : Option PendingUnbind :=
  db.pending_unbinds.find? fun p =>
    p.uin == uin && (!valid_only || (!p.is_processed && decide (now < p.expires_at)))

/-- `crud.mark_pending_unbind_processed`. -/
def mark_pending_unbind_processed (db : DB) (pending_id : Nat) : Bool × DB :=
  (db.pending_unbinds.any (·.id == pending_id),
   { db with pending_unbinds :=
       db.pending_unbinds.map fun p =>
         if p.id == pending_id then { p with is_processed := true } else p })

/-- `crud.create_authorization_log`. -/
def create_authorization_log (db : DB) (now : Int) (uin : Int)
    (client_id address scope : String) (is_success : Bool)
    (client_ip user_agent : Option String) : DB :=
  let l : AuthorizationLog :=
    { id := nextId (db.authorization_logs.map (·.id)), uin, client_id, address,
      scope, authorization_time := now, is_success, client_ip, user_agent }
  { db with authorization_logs := db.authorization_logs ++ [l] }

/-- `crud.create_unbind_log`. -/
def create_unbind_log (db : DB) (now : Int) (uin : Int) (unbind_user sub : String)
    (bind_time : Int) (is_unbind : Bool) (reason : String) : DB :=
  let l : UnbindLog :=
    { id := nextId (db.unbind_logs.map (·.id)), uin, unbind_user, sub, bind_time,
      unbind_request_time := now,
      unbind_time := if is_unbind then some now else none, is_unbind,
      reason := some reason }
  { db with unbind_logs := db.unbind_logs ++ [l] }

/-- `crud.create_oauth_token`. -/
def create_oauth_token (db : DB) (now : Int) (access_token : String)
    (client_id : String) (bind_user_id : Nat) (uin : Int) (scope : String)
    (access_token_expires_in : Int) (refresh_token : Option String)
    (refresh_token_expires_in : Option Int) : DB × OAuthToken :=
  let t : OAuthToken :=
    { id := nextId (db.oauth_tokens.map (·.id)), access_token, refresh_token,
      token_type := "Bearer", client_id, bind_user_id, uin, scope,
      created_at := now, access_token_expires_at := now + access_token_expires_in,
      refresh_token_expires_at :=
        match refresh_token_expires_in with
        | some e => some (now + e)
        | none => none,
      is_revoked := false }
  ({ db with oauth_tokens := db.oauth_tokens ++ [t] }, t)

/-- `crud.get_token_by_access_token`. -/
def get_token_by_access_token (db : DB) (access_token : String) (now : Int)
    (valid_only : Bool := true) : Option OAuthToken :=
  db.oauth_tokens.find? fun t =>
    t.access_token == access_token &&
      (!valid_only || (!t.is_revoked && decide (now < t.access_token_expires_at)))

/-- `crud.get_token_by_refresh_token`: the SQL comparison of a NULL
`refresh_token` or `refresh_token_expires_at` column is never satisfied. -/
def get_token_by_refresh_token (db : DB) (refresh_token : String) (now : Int)
    (valid_only : Bool := true) : Option OAuthToken :=
  db.oauth_tokens.find? fun t =>
    t.refresh_token == some refresh_token &&
      (!valid_only ||
        (!t.is_revoked &&
          match t.refresh_token_expires_at with
          | some e => decide (now < e)
          | none => false))

/-- `crud.revoke_token`. -/
def revoke_token (db : DB) (token_id : Nat) : Bool × DB :=
  (db.oauth_tokens.any (·.id == token_id),
   { db with oauth_tokens :=
       db.oauth_tokens.map fun t =>
         if t.id == token_id then { t with is_revoked := true } else t })

/-- `crud.revoke_all_user_tokens`. -/
def revoke_all_user_tokens (db : DB) (uin : Int) (client_id : Option String) :
    Nat × DB :=
  let hit : OAuthToken → Bool := fun t =>
    t.uin == uin && (match client_id with | some c => t.client_id == c | none => true)
  ((db.oauth_tokens.filter hit).length,
   { db with oauth_tokens :=
       db.oauth_tokens.map fun t => if hit t then { t with is_revoked := true } else t })

/-! ## Configuration (`config.py`)

Only the options the embedded code paths read.  `OAuthClient` mirrors
`config.OAuthClient`; the scattered `config.oauth_provider.*`,
`config.binding.*` and `config.oauth_clients` values are gathered into
one record. -/

/-- `config.OAuthClient`: a registered relying party. -/
structure OAuthClient where
  client_id : String
  client_secret : String
  name : String
  redirect_uris : List String
  allowed_scopes : List String
deriving DecidableEq, Repr

/-- The configuration values read by the embedded handlers:
`oauth_clients`, `oauth_provider.{access_token_expire,
refresh_token_expire, verification_code_expire, issuer}` and
`binding.stored_fields`. -/
structure Config where
  oauth_clients : List OAuthClient
  access_token_expire : Int
  refresh_token_expire : Int
  verification_code_expire : Int
  issuer : String
  stored_fields : List String
deriving DecidableEq, Repr

/-! ## OAuth provider helpers (`oauth/provider.py`) -/

/-- The `(scheme, netloc, path)` triple of `urllib.parse.urlparse` that
`_validate_redirect_uri` compares. -/
structure UrlParts where
  scheme : String
  netloc : String
  path : String
deriving DecidableEq, Repr

/-- `urllib.parse.urlparse`, restricted to the three components the
comparison uses: text before `://` is the scheme, then the authority up
to the first `/`, with query (`?…`) and fragment (`#…`) cut off.  A URI
without `://` parses as a bare path, as in Python. -/
def urlparse (uri : String) : UrlParts :=
  match uri.splitOn "://" with
  | s :: r :: rs =>
      let rest := String.intercalate "://" (r :: rs)
      let noFrag := (rest.splitOn "#").headD ""
      let noQuery := (noFrag.splitOn "?").headD ""
      let netloc := (noQuery.splitOn "/").headD ""
      ⟨s, netloc, noQuery.drop netloc.length⟩
  | _ =>
      let noFrag := (uri.splitOn "#").headD ""
      let noQuery := (noFrag.splitOn "?").headD ""
      ⟨"", "", noQuery⟩

/-- `OAuthProvider._validate_redirect_uri`: exact match against the
client's registered URIs, else `(scheme, netloc, path)` equality. -/
def validate_redirect_uri_allowed (uri : String) (allowed_uris : List String) : Bool :=
  if allowed_uris.isEmpty then false
  else if allowed_uris.contains uri then true
  else allowed_uris.any fun allowed => urlparse uri == urlparse allowed

/-- `OAuthProvider.validate_client`: find the client by id; compare the
secret only when one was presented (`client_secret is not None`); check
the redirect URI only when one was presented.  `secrets.compare_digest`
is modelled as equality. -/
def validate_client (cfg : Config) (client_id : String)
    (client_secret : Option String := none) (redirect_uri : Option String := none) :
    Bool × Option OAuthClient × Option String :=
  match cfg.oauth_clients.find? (·.client_id == client_id) with
  | none => (false, none, some "invalid_client")
  | some client =>
      let secretOk :=
        match client_secret with
        | some cs => cs == client.client_secret
        | none => true
      if !secretOk then (false, none, some "invalid_client")
      else
        let redirectOk :=
          match redirect_uri with
          | some uri => validate_redirect_uri_allowed uri client.redirect_uris
          | none => true
        if !redirectOk then (false, none, some "invalid_redirect_uri")
        else (true, some client, none)

/-- `OAuthProvider.validate_scope`: every requested scope token must be
in the client's allow-list. -/
def validate_scope (requested_scope : String) (client : OAuthClient) :
    Bool × Option String :=
  match (pySplit requested_scope).find? (fun s => !client.allowed_scopes.contains s) with
  | some s => (false, some s)
  | none => (true, none)

/-- `OAuthProvider.verify_pkce`: `plain` is (constant-time) equality,
`S256` compares the unpadded base64url SHA-256 of the ASCII verifier
with the stored challenge, anything else fails. -/
def verify_pkce (code_verifier code_challenge code_challenge_method : String) : Bool :=
  if code_challenge_method == "plain" then
    code_verifier == code_challenge
  else if code_challenge_method == "S256" then
    b64urlNoPad (sha256 (asciiBytes code_verifier)) == code_challenge
  else
    false

/-- `OAuthProvider.generate_id_token`: the JWT payload dict.  The final
`jwt.encode(payload, secret, "HS256")` step (the external `jwt` library)
is abstracted away; the id token is modelled as its payload. -/
def generate_id_token (cfg : Config) (uin : Int) (client_id scope : String)
    (user_data : Dict) (nonce : Option String) (now : Int) : Dict :=
  let payload : Dict :=
    [("iss", .vStr cfg.issuer),
     ("sub", match dget user_data "sub" with
             | some v => v
             | none => .vStr (toString uin)),
     ("aud", .vStr client_id),
     ("iat", .vInt now),
     ("exp", .vInt (now + cfg.access_token_expire)),
     ("uin", .vInt uin)]
  let scopes := pySplit scope
  let payload :=
    if scopes.contains "email" && dmem user_data "email" then
      let payload := dset payload "email" (dgetD user_data "email")
      dset payload "email_verified"
        (match dget user_data "email_verified" with
         | some v => v
         | none => .vBool false)
    else payload
  let payload :=
    if scopes.contains "profile" then
      let payload :=
        if dmem user_data "preferred_username" then
          dset payload "preferred_username" (dgetD user_data "preferred_username")
        else payload
      let payload :=
        if dmem user_data "nickname" then
          dset payload "nickname" (dgetD user_data "nickname")
        else payload
      if dmem user_data "name" then dset payload "name" (dgetD user_data "name")
      else payload
    else payload
  let payload :=
    if scopes.contains "preferred_username" && dmem user_data "preferred_username" then
      dset payload "preferred_username" (dgetD user_data "preferred_username")
    else payload
  match nonce with
  | some n => if n ≠ "" then dset payload "nonce" (.vStr n) else payload
  | none => payload

/-- `provider.TokenResponse` (the pydantic response model); `id_token`
carries the JWT payload per `generate_id_token`. -/
structure TokenResponse where
  access_token : String
  token_type : String
  expires_in : Int
  refresh_token : Option String
  scope : String
  id_token : Option Dict
deriving DecidableEq, Repr

/-- The values `secrets.token_urlsafe` draws for one token response;
randomness is passed in explicitly. -/
structure FreshTokens where
  access_token : String
  refresh_token : String
deriving DecidableEq, Repr

/-- `OAuthProvider.create_token_response`: mint access/refresh tokens
(the fresh random draws) and an id-token payload iff `openid` is in the
scope. -/
def create_token_response (cfg : Config) (uin : Int) (client_id scope : String)
    (user_data : Dict) (fresh : FreshTokens) (now : Int)
    (include_refresh_token : Bool := true) (nonce : Option String := none) :
    TokenResponse :=
  let refresh_token := if include_refresh_token then some fresh.refresh_token else none
  let id_token :=
    if (pySplit scope).contains "openid" then
      some (generate_id_token cfg uin client_id scope user_data nonce now)
    else none
  { access_token := fresh.access_token, token_type := "Bearer",
    expires_in := cfg.access_token_expire, refresh_token, scope, id_token }

/-- `OAuthProvider.get_user_claims`: project the user-data dict onto the
token's scope.  Note the last loop reads the key `"extra_data"` of
`bind_user_data`; the routes build `user_data` by flat `dict.update`, so
that key is normally absent and `extra_data or {}` yields `{}`. -/
def get_user_claims (scope : String) (bind_user_data : Dict) : Dict :=
  let scopes := pySplit scope
  let claims : Dict := []
  let claims :=
    if scopes.contains "uin" then dset claims "uin" (dgetD bind_user_data "uin")
    else claims
  let claims :=
    if scopes.contains "openid" then
      let subv := dgetD bind_user_data "sub"
      dset claims "sub"
        (if pyTruthy subv then subv else .vStr (pyStr (dgetD bind_user_data "uin")))
    else claims
  let claims :=
    if scopes.contains "email" && dmem bind_user_data "email" then
      dset claims "email" (dgetD bind_user_data "email")
    else claims
  let claims :=
    if (scopes.contains "profile" || scopes.contains "preferred_username") &&
        dmem bind_user_data "preferred_username" then
      dset claims "preferred_username" (dgetD bind_user_data "preferred_username")
    else claims
  let extra_data : Dict :=
    match dget bind_user_data "extra_data" with
    | some (.vDict m) => m.toList
    | _ => []
  scopes.foldl
    (fun claims s =>
      if dmem extra_data s && !dmem claims s then dset claims s (dgetD extra_data s)
      else claims)
    claims

/-! ## Rate limiter (`utils/security.py`)

One bucket (the list of request timestamps for a `(route, ip)` key) is
threaded explicitly; `RateLimiter.check` filters the window, rejects
with a retry delay when full, else records the request.  The 5-minute
janitor pass only discards hour-old entries and is omitted. -/

/-- `security.RateLimitRule`. -/
structure RateLimitRule where
  max_requests : Nat
  window_seconds : Int
deriving DecidableEq, Repr

/-- `RATE_LIMITS["token"]`. -/
def tokenRateRule : RateLimitRule := ⟨20, 60⟩

/-- `RATE_LIMITS["authorize"]`. -/
def authorizeRateRule : RateLimitRule := ⟨10, 60⟩

/-- `RateLimiter.check`: returns `((allowed, retry_after), bucket')`. -/
def rateLimitCheck (bucket : List Int) (rule : RateLimitRule) (now : Int) :
    (Bool × Option Int) × List Int :=
  let requests := bucket.filter (fun t => decide (now - rule.window_seconds < t))
  if rule.max_requests ≤ requests.length then
    let oldest := requests.foldl min (requests.headD now)
    ((false, some (oldest + rule.window_seconds - now + 1)), requests)
  else
    ((true, none), requests ++ [now])

/-! ## The token endpoint (`page/oauth_routes.py`, `POST /oauth/token`)

The handler is modelled twice from the same source text: `token` is the
straight-line translation, and `tokStep`/`tokRun` is the same handler
cut at its `await` suspension points (each step touches the shared
state — database plus rate-limit bucket — at most once), which is what
the concurrency analysis needs.  The decoded HTTP Basic `Authorization`
header is passed as its `(client_id, client_secret)` pair. -/

/-- The form/header inputs of `POST /oauth/token`. -/
structure TokenRequest where
  grant_type : String
  code : Option String := none
  redirect_uri : Option String := none
  client_id : Option String := none
  client_secret : Option String := none
  code_verifier : Option String := none
  refresh_token : Option String := none
  basic_auth : Option (String × String) := none
deriving DecidableEq, Repr

/-- The outcome of `POST /oauth/token`: 429, a JSON error with its HTTP
status, or a minted `TokenResponse`. -/
inductive TokenResult where
  | rateLimited (retry_after : Int)
  | err (status : Nat) (error description : String)
  | ok (resp : TokenResponse)
deriving DecidableEq, Repr

/-- The `user_data` dict the routes build from a `BindUser` row: the
four fixed keys, then `extra_data` merged flat on top. -/
def buildUserData (bind_user : BindUser) : Dict :=
  dupdate
    [("uin", .vInt bind_user.uin),
     ("email", match bind_user.email with | some e => .vStr e | none => .vNone),
     ("preferred_username",
      match bind_user.preferred_username with | some p => .vStr p | none => .vNone),
     ("sub", .vStr bind_user.sub)]
    (bind_user.extra_data.getD [])

/-- Resolve the presented client credentials: HTTP Basic overrides the
form fields when present (`oauth_routes.py` 451-458). -/
def requestCredentials (req : TokenRequest) : Option String × Option String :=
  match req.basic_auth with
  | some (i, s) => (some i, some s)
  | none => (req.client_id, req.client_secret)

/-- `POST /oauth/token`, straight-line: returns the result, the
database after the request's transaction committed, and the updated
rate-limit bucket. -/
def token (cfg : Config) (db : DB) (bucket : List Int) (now : Int)
    (req : TokenRequest) (fresh : FreshTokens) : TokenResult × DB × List Int :=
  let ((allowed, retry), bucket) := rateLimitCheck bucket tokenRateRule now
  if !allowed then (.rateLimited (retry.getD 0), db, bucket)
  else
    let (cidOpt, csOpt) := requestCredentials req
    match cidOpt with
    | none => (.err 400 "invalid_request" "client_id is required", db, bucket)
    | some client_id =>
      let (valid, _, _) := validate_client cfg client_id csOpt
      if !valid then
        (.err 401 "invalid_client" "Client authentication failed", db, bucket)
      else if req.grant_type == "authorization_code" then
        match req.code with
        | none => (.err 400 "invalid_request" "code is required", db, bucket)
        | some code =>
          if code == "" then (.err 400 "invalid_request" "code is required", db, bucket)
          else
            match get_pending_auth_by_auth_code db code now with
            | none =>
                (.err 400 "invalid_grant" "Invalid or expired authorization code",
                 db, bucket)
            | some pending =>
              if (match req.redirect_uri with
                  | some r => r != "" && r != pending.redirect_uri
                  | none => false) then
                (.err 400 "invalid_grant" "redirect_uri mismatch", db, bucket)
              else if pyTruthyS pending.code_challenge &&
                  !pyTruthyS req.code_verifier then
                (.err 400 "invalid_request" "code_verifier is required", db, bucket)
              else if pyTruthyS pending.code_challenge &&
                  !verify_pkce (req.code_verifier.getD "")
                    (pending.code_challenge.getD "")
                    (pyOrStr pending.code_challenge_method "plain") then
                (.err 400 "invalid_grant" "Invalid code_verifier", db, bucket)
              else
                match get_bind_user_by_uin db pending.uin with
                | none => (.err 400 "invalid_grant" "User not found", db, bucket)
                | some bind_user =>
                  let db := (mark_pending_auth_used db pending.id).2
                  let user_data := buildUserData bind_user
                  let resp :=
                    create_token_response cfg bind_user.uin client_id pending.scope
                      user_data fresh now
                  let db :=
                    (create_oauth_token db now resp.access_token client_id
                      bind_user.id bind_user.uin pending.scope
                      cfg.access_token_expire resp.refresh_token
                      (if pyTruthyS resp.refresh_token then
                        some cfg.refresh_token_expire
                      else none)).1
                  (.ok resp, db, bucket)
      else if req.grant_type == "refresh_token" then
        match req.refresh_token with
        | none => (.err 400 "invalid_request" "refresh_token is required", db, bucket)
        | some rt =>
          if rt == "" then
            (.err 400 "invalid_request" "refresh_token is required", db, bucket)
          else
            match get_token_by_refresh_token db rt now with
            | none =>
                (.err 400 "invalid_grant" "Invalid or expired refresh token",
                 db, bucket)
            | some token_record =>
              if token_record.client_id != client_id then
                (.err 400 "invalid_grant" "Client mismatch", db, bucket)
              else
                let db := (revoke_token db token_record.id).2
                match get_bind_user_by_uin db token_record.uin with
                | none => (.err 400 "invalid_grant" "User not found", db, bucket)
                | some bind_user =>
                  let user_data := buildUserData bind_user
                  let resp :=
                    create_token_response cfg bind_user.uin client_id
                      token_record.scope user_data fresh now
                  let db :=
                    (create_oauth_token db now resp.access_token client_id
                      bind_user.id bind_user.uin token_record.scope
                      cfg.access_token_expire resp.refresh_token
                      (if pyTruthyS resp.refresh_token then
                        some cfg.refresh_token_expire
                      else none)).1
                  (.ok resp, db, bucket)
      else
        (.err 400 "unsupported_grant_type" req.grant_type, db, bucket)

/-- The shared mutable state a `/token` request touches: the database
and the rate-limit bucket of its `(route, ip)` key. -/
structure TokShared where
  db : DB
  bucket : List Int
deriving DecidableEq, Repr

/-- The `/token` handler's control points between `await`s.  `start`
covers everything up to and including the first database read (the
grant lookup) plus the pure checks that follow it. -/
inductive TokPhase where
  | start
  | acChecked (client_id : String) (pending : PendingAuth)
  | acUser (client_id : String) (pending : PendingAuth) (bind_user : BindUser)
  | acMarked (client_id : String) (pending : PendingAuth) (bind_user : BindUser)
  | rtLooked (client_id : String) (token_record : OAuthToken)
  | rtRevoked (client_id : String) (token_record : OAuthToken)
  | rtUser (client_id : String) (token_record : OAuthToken) (bind_user : BindUser)
  | done (r : TokenResult)
deriving DecidableEq, Repr

/-- One atomic step of the `/token` handler (at most one access to the
shared state), same source text as `token`. -/
def tokStep (cfg : Config) (now : Int) (req : TokenRequest) (fresh : FreshTokens) :
    TokPhase → TokShared → TokPhase × TokShared
  | .start, st =>
      let ((allowed, retry), bucket) := rateLimitCheck st.bucket tokenRateRule now
      let st := { st with bucket }
      if !allowed then (.done (.rateLimited (retry.getD 0)), st)
      else
        let (cidOpt, csOpt) := requestCredentials req
        match cidOpt with
        | none => (.done (.err 400 "invalid_request" "client_id is required"), st)
        | some client_id =>
          let (valid, _, _) := validate_client cfg client_id csOpt
          if !valid then
            (.done (.err 401 "invalid_client" "Client authentication failed"), st)
          else if req.grant_type == "authorization_code" then
            match req.code with
            | none => (.done (.err 400 "invalid_request" "code is required"), st)
            | some code =>
              if code == "" then
                (.done (.err 400 "invalid_request" "code is required"), st)
              else
                match get_pending_auth_by_auth_code st.db code now with
                | none =>
                    (.done (.err 400 "invalid_grant"
                      "Invalid or expired authorization code"), st)
                | some pending =>
                  if (match req.redirect_uri with
                      | some r => r != "" && r != pending.redirect_uri
                      | none => false) then
                    (.done (.err 400 "invalid_grant" "redirect_uri mismatch"), st)
                  else if pyTruthyS pending.code_challenge &&
                      !pyTruthyS req.code_verifier then
                    (.done (.err 400 "invalid_request" "code_verifier is required"),
                     st)
                  else if pyTruthyS pending.code_challenge &&
                      !verify_pkce (req.code_verifier.getD "")
                        (pending.code_challenge.getD "")
                        (pyOrStr pending.code_challenge_method "plain") then
                    (.done (.err 400 "invalid_grant" "Invalid code_verifier"), st)
                  else (.acChecked client_id pending, st)
          else if req.grant_type == "refresh_token" then
            match req.refresh_token with
            | none =>
                (.done (.err 400 "invalid_request" "refresh_token is required"), st)
            | some rt =>
              if rt == "" then
                (.done (.err 400 "invalid_request" "refresh_token is required"), st)
              else
                match get_token_by_refresh_token st.db rt now with
                | none =>
                    (.done (.err 400 "invalid_grant"
                      "Invalid or expired refresh token"), st)
                | some token_record =>
                  if token_record.client_id != client_id then
                    (.done (.err 400 "invalid_grant" "Client mismatch"), st)
                  else (.rtLooked client_id token_record, st)
          else (.done (.err 400 "unsupported_grant_type" req.grant_type), st)
  | .acChecked client_id pending, st =>
      match get_bind_user_by_uin st.db pending.uin with
      | none => (.done (.err 400 "invalid_grant" "User not found"), st)
      | some bind_user => (.acUser client_id pending bind_user, st)
  | .acUser client_id pending bind_user, st =>
      (.acMarked client_id pending bind_user,
       { st with db := (mark_pending_auth_used st.db pending.id).2 })
  | .acMarked client_id pending bind_user, st =>
      let resp :=
        create_token_response cfg bind_user.uin client_id pending.scope
          (buildUserData bind_user) fresh now
      (.done (.ok resp),
       { st with db :=
          (create_oauth_token st.db now resp.access_token client_id bind_user.id
            bind_user.uin pending.scope cfg.access_token_expire resp.refresh_token
            (if pyTruthyS resp.refresh_token then some cfg.refresh_token_expire
            else none)).1 })
  | .rtLooked client_id token_record, st =>
      (.rtRevoked client_id token_record,
       { st with db := (revoke_token st.db token_record.id).2 })
  | .rtRevoked client_id token_record, st =>
      match get_bind_user_by_uin st.db token_record.uin with
      | none => (.done (.err 400 "invalid_grant" "User not found"), st)
      | some bind_user => (.rtUser client_id token_record bind_user, st)
  | .rtUser client_id token_record bind_user, st =>
      let resp :=
        create_token_response cfg bind_user.uin client_id token_record.scope
          (buildUserData bind_user) fresh now
      (.done (.ok resp),
       { st with db :=
          (create_oauth_token st.db now resp.access_token client_id bind_user.id
            bind_user.uin token_record.scope cfg.access_token_expire
            resp.refresh_token
            (if pyTruthyS resp.refresh_token then some cfg.refresh_token_expire
            else none)).1 })
  | .done r, st => (.done r, st)

/-! ## The userinfo endpoint (`GET /oauth/userinfo`) -/

/-- The outcome of `GET /oauth/userinfo`. -/
inductive UserinfoResult where
  | err (status : Nat) (error : String)
  | ok (claims : Dict)
deriving DecidableEq, Repr

/-- `GET /oauth/userinfo`: bearer-token lookup, bound-user lookup, then
the scope projection of `get_user_claims` over the flat `user_data`. -/
def userinfo (db : DB) (now : Int) (authorization : Option String) :
    UserinfoResult :=
  let access_token :=
    match authorization with
    | some a => if pyStartsWith a "Bearer " then some (pyDrop a 7) else none
    | none => none
  match access_token with
  | none => .err 401 "invalid_request"
  | some tokenStr =>
    match get_token_by_access_token db tokenStr now with
    | none => .err 401 "invalid_token"
    | some token_record =>
      match get_bind_user_by_uin db token_record.uin with
      | none => .err 401 "invalid_token"
      | some bind_user =>
        .ok (get_user_claims token_record.scope (buildUserData bind_user))

/-! ## Chat command handlers (`bot/handlers.py`) -/

/-- Replies of the `auth <code>` command. -/
inductive AuthReply where
  | usage
  | notBound
  | invalidOrExpired
  | notYours
  | approved (client_name scope : String)
deriving DecidableEq, Repr

/-- The display name looked up for the reply (`handlers.py` 350-354). -/
def clientDisplayName (cfg : Config) (client_id : String) : String :=
  match cfg.oauth_clients.find? (·.client_id == client_id) with
  | some c => c.name
  | none => "未知应用"

/-- The inline claim UPDATE of `handle_auth` (`handlers.py` 336-340):
`UPDATE pending_auth SET uin=?, bind_user_id=? WHERE id=?`.  The guard
names only the primary key — not the prior `uin=0` state. -/
def claim_pending_auth (db : DB) (pending_id : Nat) (uin : Int)
    (bind_user_id : Nat) : DB :=
  { db with pending_auths :=
      db.pending_auths.map fun p =>
        if p.id == pending_id then { p with uin, bind_user_id } else p }

/-- The tail of `handle_auth` after the claim/ownership check: approve,
write the audit log, reply (`handlers.py` 346-373). -/
def approveAndLog (cfg : Config) (db : DB) (now : Int) (user_id : Int)
    (pending : PendingAuth) : AuthReply × DB :=
  let db := (approve_pending_auth db pending.id).2
  let db :=
    create_authorization_log db now user_id pending.client_id pending.redirect_uri
      pending.scope true pending.client_ip pending.user_agent
  (.approved (clientDisplayName cfg pending.client_id) pending.scope, db)

/-- `handle_auth`, straight-line: requires an active binding, looks the
pending row up by upper-cased verification code (valid rows only),
claims it when unclaimed, rejects when claimed by someone else, then
approves and logs. -/
def handle_auth (cfg : Config) (db : DB) (now : Int) (user_id : Int)
    (args : List String) : AuthReply × DB :=
  match args with
  | [] => (.usage, db)
  | codeArg :: _ =>
    match get_bind_user_by_uin db user_id with
    | none => (.notBound, db)
    | some bind_user =>
      match get_pending_auth_by_code db (pyUpper codeArg) now with
      | none => (.invalidOrExpired, db)
      | some pending =>
        if pending.uin == 0 then
          approveAndLog cfg (claim_pending_auth db pending.id user_id bind_user.id)
            now user_id pending
        else if pending.uin != user_id then (.notYours, db)
        else approveAndLog cfg db now user_id pending

/-- The `auth` handler's control points between `await`s. -/
inductive AuthPhase where
  | start
  | gotUser (bind_user : BindUser)
  | gotPending (bind_user : BindUser) (pending : PendingAuth)
  | claimed (pending : PendingAuth)
  | approvedPh (pending : PendingAuth)
  | done (r : AuthReply)
deriving DecidableEq, Repr

/-- One atomic step of `handle_auth` (one database access per step),
same source text as `handle_auth`. -/
def authStep (cfg : Config) (now : Int) (user_id : Int) (codeArg : String) :
    AuthPhase → DB → AuthPhase × DB
  | .start, db =>
      match get_bind_user_by_uin db user_id with
      | none => (.done .notBound, db)
      | some bind_user => (.gotUser bind_user, db)
  | .gotUser bind_user, db =>
      match get_pending_auth_by_code db (pyUpper codeArg) now with
      | none => (.done .invalidOrExpired, db)
      | some pending => (.gotPending bind_user pending, db)
  | .gotPending bind_user pending, db =>
      if pending.uin == 0 then
        (.claimed pending, claim_pending_auth db pending.id user_id bind_user.id)
      else if pending.uin != user_id then (.done .notYours, db)
      else (.claimed pending, db)
  | .claimed pending, db =>
      (.approvedPh pending, (approve_pending_auth db pending.id).2)
  | .approvedPh pending, db =>
      (.done (.approved (clientDisplayName cfg pending.client_id) pending.scope),
       create_authorization_log db now user_id pending.client_id
         pending.redirect_uri pending.scope true pending.client_ip
         pending.user_agent)
  | .done r, db => (.done r, db)

/-- Two concurrent `auth` commands over the shared database. -/
structure TwoAuthState where
  phase1 : AuthPhase
  phase2 : AuthPhase
  db : DB
deriving DecidableEq, Repr

/-- Run a schedule (`true` steps caller 1, `false` steps caller 2) of
two interleaved `auth` handlers. -/
def twoAuthRun (cfg : Config) (now : Int) (uid1 uid2 : Int)
    (code1 code2 : String) (sched : List Bool) (st : TwoAuthState) :
    TwoAuthState :=
  sched.foldl
    (fun st pick =>
      if pick then
        let (p, db) := authStep cfg now uid1 code1 st.phase1 st.db
        ⟨p, st.phase2, db⟩
      else
        let (p, db) := authStep cfg now uid2 code2 st.phase2 st.db
        ⟨st.phase1, p, db⟩)
    st

/-- Two concurrent `/token` requests over the shared state. -/
structure TwoTokState where
  phase1 : TokPhase
  phase2 : TokPhase
  shared : TokShared
deriving DecidableEq, Repr

/-- Run a schedule of two interleaved `/token` handlers. -/
def twoTokRun (cfg : Config) (now : Int) (req1 req2 : TokenRequest)
    (fresh1 fresh2 : FreshTokens) (sched : List Bool) (st : TwoTokState) :
    TwoTokState :=
  sched.foldl
    (fun st pick =>
      if pick then
        let (p, sh) := tokStep cfg now req1 fresh1 st.phase1 st.shared
        ⟨p, st.phase2, sh⟩
      else
        let (p, sh) := tokStep cfg now req2 fresh2 st.phase2 st.shared
        ⟨st.phase1, p, sh⟩)
    st

/-- Replies of the `unbind` command. -/
inductive UnbindReply where
  | usage
  | noPendingToConfirm
  | notBound
  | unbound (username : String)
  | mismatch (bound_username : String)
  | confirmPrompt (username : String)
deriving DecidableEq, Repr

/-- `handle_unbind` (`handlers.py` 205-295): `unbind confirm` consumes a
valid pending request and deactivates the binding; `unbind <username>`
requires an active binding, compares the argument against the coalesced
display name (case-insensitively) or the raw `sub`, supersedes any
valid pending unbind, and creates a fresh one with a 300-second TTL. -/
def handle_unbind (db : DB) (now : Int) (user_id : Int) (message_type : String)
    (source_id : Int) (args : List String) : UnbindReply × DB :=
  match args with
  | [] => (.usage, db)
  | arg0 :: _ =>
    let pending := get_pending_unbind_by_uin db user_id now
    if pyLower arg0 == "confirm" then
      match pending with
      | none => (.noPendingToConfirm, db)
      | some p =>
        match get_bind_user_by_uin db user_id with
        | none => (.notBound, (mark_pending_unbind_processed db p.id).2)
        | some bind_user =>
          let db := (deactivate_bind_user db bind_user.id).2
          let db :=
            create_unbind_log db now user_id p.username bind_user.sub
              bind_user.bind_time true "confirm"
          let db := (mark_pending_unbind_processed db p.id).2
          (.unbound p.username, db)
    else
      let username := arg0
      match get_bind_user_by_uin db user_id with
      | none => (.notBound, db)
      | some bind_user =>
        let bound_username :=
          pyOrStr bind_user.preferred_username (pyOrStr bind_user.email bind_user.sub)
        if pyLower username != pyLower bound_username && username != bind_user.sub then
          (.mismatch bound_username, db)
        else
          let db :=
            match pending with
            | some p => (mark_pending_unbind_processed db p.id).2
            | none => db
          let db :=
            (create_pending_unbind db now user_id username bind_user.id
              message_type source_id 300).1
          (.confirmPrompt username, db)

/-! ## The SSO binding callback (`page/routes.py`, `GET /callback`) -/

/-- The upstream userinfo result of `exchange_and_get_userinfo`
(`oauth/client.py`, an outbound HTTP call — passed in as data). -/
structure UserInfo where
  sub : String
  email : Option String
  preferred_username : Option String
  raw_data : Dict
deriving DecidableEq, Repr

/-- The page outcomes of `GET /callback`.  `uniqueViolation` is the
unhandled unique-index error from `create_bind_user` (HTTP 500, the
request transaction rolled back). -/
inductive CallbackResult where
  | ssoError
  | paramError
  | invalidLink
  | alreadyBound
  | configError
  | fetchFailed
  | subTaken
  | uniqueViolation
  | success (uin : Int) (display_name : String)
deriving DecidableEq, Repr

/-- `GET /callback` (`routes.py` 164-303): validate the state, check
for an existing *active* binding by UIN and by sub, project
`stored_fields` out of the raw userinfo, insert the binding, mark the
pending bind used.  `clientConfigured` is whether
`get_oauth_client_async()` returned a client; `ssoUser` is the outcome
of the upstream exchange. -/
def oauth_callback (cfg : Config) (db : DB) (now : Int)
    (code state error : Option String) (clientConfigured : Bool)
    (ssoUser : Option UserInfo) : CallbackResult × DB :=
  if pyTruthyS error then (.ssoError, db)
  else if !pyTruthyS code || !pyTruthyS state then (.paramError, db)
  else
    match get_pending_bind_by_state db (state.getD "") now with
    | none => (.invalidLink, db)
    | some pending =>
      match get_bind_user_by_uin db pending.uin with
      | some _ => (.alreadyBound, (mark_pending_bind_used db pending.id).2)
      | none =>
        if !clientConfigured then (.configError, db)
        else
          match ssoUser with
          | none => (.fetchFailed, db)
          | some u =>
            match get_bind_user_by_sub db u.sub with
            | some _ => (.subTaken, (mark_pending_bind_used db pending.id).2)
            | none =>
              let extra_data :=
                cfg.stored_fields.foldl
                  (fun acc f =>
                    if !(["sub", "email", "preferred_username"].contains f) &&
                        dmem u.raw_data f then
                      dset acc f (dgetD u.raw_data f)
                    else acc)
                  ([] : Dict)
              match create_bind_user db now pending.uin u.sub u.email
                  u.preferred_username
                  (if extra_data.isEmpty then none else some extra_data) with
              | .error _ => (.uniqueViolation, db)
              | .ok (db, _) =>
                let db := (mark_pending_bind_used db pending.id).2
                (.success pending.uin
                  (pyOrStr u.preferred_username (pyOrStr u.email (pyTake u.sub 16))),
                 db)

/-! ## Concrete sample data and result projections

Fixed instances used by the witnesses and counterexamples below. -/

/-- A registered demo client. -/
def demoClient : OAuthClient :=
  { client_id := "demo", client_secret := "s3cret", name := "Demo App",
    redirect_uris := ["https://rp/cb"],
    allowed_scopes := ["uin", "openid", "email", "profile"] }

/-- A sample configuration with the demo client. -/
def demoCfg : Config :=
  { oauth_clients := [demoClient], access_token_expire := 3600,
    refresh_token_expire := 2592000, verification_code_expire := 300,
    issuer := "http://localhost:8000", stored_fields := ["sub", "email", "nickname"] }

/-- A bound user. -/
def aliceBind : BindUser :=
  { id := 1, uin := 10001, sub := "u-42", email := some "a@x",
    preferred_username := some "alice", extra_data := none, bind_time := 100,
    is_active := true }

/-- A second bound user. -/
def bobBind : BindUser :=
  { id := 2, uin := 10002, sub := "u-43", email := some "b@x",
    preferred_username := some "bob", extra_data := none, bind_time := 100,
    is_active := true }

/-- An already-consumed pending authorization (used auth code `AC`). -/
def usedPending : PendingAuth :=
  { id := 7, verification_code := "K7M3Q2", auth_code := "AC",
    client_id := "demo", redirect_uri := "https://rp/cb",
    scope := "openid email", state := some "ST", code_challenge := none,
    code_challenge_method := none, bind_user_id := 1, uin := 10001,
    created_at := 900, expires_at := 2000, is_approved := true,
    is_used := true, client_ip := none, user_agent := none }

/-- An approved, not yet used pending authorization (auth code `AC`). -/
def approvedPending : PendingAuth :=
  { usedPending with is_used := false }

/-- An unclaimed (`uin = 0`), unapproved, unexpired pending
authorization with verification code `K7M3Q2`. -/
def unclaimedPending : PendingAuth :=
  { usedPending with
    uin := 0, bind_user_id := 0, is_approved := false, is_used := false }

/-- An exchange request for auth code `AC` with the demo client's
credentials. -/
def acRequest : TokenRequest :=
  { grant_type := "authorization_code", code := some "AC",
    client_id := some "demo", client_secret := some "s3cret" }

/-- Whether a `/token` control point has finished with a minted
`TokenResponse`. -/
def TokPhase.isDoneOk : TokPhase → Bool
  | .done (.ok _) => true
  | _ => false

/-- Run `fuel` steps of one `/token` handler from a control point
(`done` is absorbing). -/
def tokRunFrom (cfg : Config) (now : Int) (req : TokenRequest)
    (fresh : FreshTokens) : Nat → TokPhase → TokShared → TokPhase × TokShared
  | 0, p, st => (p, st)
  | fuel + 1, p, st =>
      let (q, st') := tokStep cfg now req fresh p st
      tokRunFrom cfg now req fresh fuel q st'

/-- Every stored token row carrying the given refresh token is
revoked: once this holds, a `refresh_token` grant presenting that value
can only fail. -/
def deadRefresh (db : DB) (rt : String) : Prop :=
  ∀ t ∈ db.oauth_tokens, t.refresh_token = some rt → t.is_revoked = true

/-- Run a sequence of `/token` requests — each with its own bucket,
clock and fresh random draws — accumulating the store. -/
def runSeq (cfg : Config) :
    DB → List (TokenRequest × FreshTokens × Int × List Int) → DB
  | db, [] => db
  | db, (req, fresh, now, bucket) :: rest =>
      runSeq cfg (token cfg db bucket now req fresh).2.1 rest

/-- The store on which two exchanges of the same auth code race: one
bound user, one approved unused pending row for code `AC`. -/
def c2Db : DB := ⟨[aliceBind], [], [approvedPending], [], [], [], []⟩

/-- The lost-update schedule: both requests do their auth-code lookup
(steps 1-2), then request 1 runs to commit (steps 3-5), then request 2
(steps 6-8). -/
def c2Sched : List Bool := [true, false, true, true, true, false, false, false]

/-- Two interleaved exchanges of auth code `AC` over `c2Db`. -/
def c2Run (sched : List Bool) : TwoTokState :=
  twoTokRun demoCfg 1000 acRequest acRequest ⟨"A1", "R1"⟩ ⟨"A2", "R2"⟩ sched
    ⟨.start, .start, ⟨c2Db, []⟩⟩

/-- Whether an `auth` control point has finished with the approved
reply. -/
def AuthPhase.isDoneApproved : AuthPhase → Bool
  | .done (.approved _ _) => true
  | _ => false

/-- A deactivated binding for UIN 10001 (after an unbind). -/
def aliceUnbound : BindUser := { aliceBind with is_active := false }

/-- A valid pending bind for UIN 10001 with state `S`. -/
def rebindPending : PendingBind :=
  { id := 1, state := "S", uin := 10001, username := "alice",
    created_at := 900, expires_at := 2000, is_used := false,
    source_type := "private", source_id := 10001 }

/-- A stored access token with scope `openid email` for Alice. -/
def c9Token : OAuthToken :=
  { id := 1, access_token := "AT", refresh_token := some "RT",
    token_type := "Bearer", client_id := "demo", bind_user_id := 1,
    uin := 10001, scope := "openid email", created_at := 0,
    access_token_expires_at := 2000, refresh_token_expires_at := some 3000,
    is_revoked := false }

/-- The store on which two `auth` claims of the same code race: two
bound users, one unclaimed valid pending row. -/
def c5Db : DB := ⟨[aliceBind, bobBind], [], [unclaimedPending], [], [], [], []⟩

/-- Two interleaved `auth K7M3Q2` handlers for callers 10001 and 10002
over `c5Db`. -/
def c5Run (sched : List Bool) : TwoAuthState :=
  twoAuthRun demoCfg 1000 10001 10002 "K7M3Q2" "K7M3Q2" sched
    ⟨.start, .start, c5Db⟩

/-! ## Helper lemmas -/

/-- `find?` returns the designated element when it satisfies the
predicate and is the only element that can. -/
theorem find?_eq_some_of_unique {α} {p : α → Bool} {r : α} :
    ∀ {l : List α}, r ∈ l → p r = true → (∀ x ∈ l, p x = true → x = r) →
      l.find? p = some r := by
  intro l
  induction l with
  | nil => intro h; cases h
  | cons a t ih =>
    intro hr hpr huniq
    by_cases ha : p a = true
    · have har : a = r := huniq a (List.mem_cons_self a t) ha
      subst har
      simp [List.find?, ha]
    · have ha' : p a = false := eq_false_of_ne_true ha
      have hrt : r ∈ t := by
        rcases List.mem_cons.mp hr with h | h
        · exact absurd (h ▸ hpr) (h ▸ ha)
        · exact h
      rw [List.find?]
      rw [ha']
      exact ih hrt hpr fun x hx hpx => huniq x (List.mem_cons_of_mem _ hx) hpx

/-! ## C4 — PKCE verification -/

/-- C4: `verify_pkce` succeeds for `S256` exactly when the unpadded
base64url SHA-256 of the ASCII verifier equals the challenge, for
`plain` exactly when verifier and challenge are equal, and fails for
every other method; and the RFC 7636 appendix-B pair verifies under
`S256`. -/
theorem verify_pkce_correct :
    (∀ v c, verify_pkce v c "S256" = true ↔
      b64urlNoPad (sha256 (asciiBytes v)) = c) ∧
    (∀ v c, verify_pkce v c "plain" = true ↔ v = c) ∧
    (∀ v c m, m ≠ "plain" → m ≠ "S256" → verify_pkce v c m = false) ∧
    verify_pkce "dBjftJeZ4CVP-mB92K27uhbUJU1p1r_wW1gFWFOEjXk"
      "E9Melhoa2OwvFrEMTJguCHaoeK1t8URWbuGJSstw-cM" "S256" = true := by
  refine ⟨?_, ?_, ?_, ?_⟩
  · intro v c; simp [verify_pkce]
  · intro v c; simp [verify_pkce]
  · intro v c m h1 h2
    simp [verify_pkce, beq_eq_false_iff_ne.mpr h1, beq_eq_false_iff_ne.mpr h2]
  · set_option maxRecDepth 100000 in decide

/-- C4 witness: the universally quantified parts applied at concrete
inputs — a method that is neither `plain` nor `S256` is rejected. -/
theorem verify_pkce_correct_witness :
    verify_pkce "abc" "abc" "S512" = false :=
  verify_pkce_correct.2.2.1 "abc" "abc" "S512" (by decide) (by decide)

/-! ## C1 — replayed or otherwise invalid auth codes at `/token` -/

/-- C1: an `authorization_code` grant whose `code` matches no pending
row satisfying `is_approved ∧ ¬is_used ∧ now < expires_at` — in
particular a replay of an already-used code — is answered with HTTP 400
`invalid_grant`, and the database is left untouched (no token row is
minted).  The hypotheses pin the request to the grant handler: the rate
limit admits it, a client id is presented and its credentials validate,
and a non-empty code is present. -/
theorem token_stale_code_invalid_grant
    (cfg : Config) (db : DB) (bucket : List Int) (now : Int)
    (req : TokenRequest) (fresh : FreshTokens) (cid code : String)
    (hrl : (rateLimitCheck bucket tokenRateRule now).1.1 = true)
    (hcid : (requestCredentials req).1 = some cid)
    (hvalid : (validate_client cfg cid (requestCredentials req).2).1 = true)
    (hgrant : req.grant_type = "authorization_code")
    (hcode : req.code = some code) (hne : code ≠ "")
    (hstale : ∀ p ∈ db.pending_auths, p.auth_code = code →
      ¬(p.is_approved = true ∧ p.is_used = false ∧ now < p.expires_at)) :
    token cfg db bucket now req fresh =
      (.err 400 "invalid_grant" "Invalid or expired authorization code", db,
       (rateLimitCheck bucket tokenRateRule now).2) := by
  have hlook : get_pending_auth_by_auth_code db code now = none := by
    rw [get_pending_auth_by_auth_code]
    apply List.find?_eq_none.mpr
    intro p hp
    by_cases hac : p.auth_code = code
    · intro hcon
      simp only [hac, beq_self_eq_true, Bool.true_and, Bool.not_true,
        Bool.false_or, Bool.and_eq_true, Bool.not_eq_true',
        decide_eq_true_eq] at hcon
      exact hstale p hp hac ⟨hcon.1.1, hcon.1.2, hcon.2⟩
    · simp [beq_iff_eq, hac]
  rcases hb : rateLimitCheck bucket tokenRateRule now with ⟨⟨allowed, retry⟩, bucket'⟩
  rw [hb] at hrl
  simp only at hrl
  subst hrl
  rcases hc : requestCredentials req with ⟨cidO, csO⟩
  rw [hc] at hcid
  simp only at hcid
  subst hcid
  rw [hc] at hvalid
  rcases hv : validate_client cfg cid csO with ⟨valid, copt, eopt⟩
  rw [hv] at hvalid
  simp only at hvalid
  subst hvalid
  simp [token, hb, hc, hv, hgrant, hcode, hlook, beq_eq_false_iff_ne.mpr hne]

/-- C1 witness: replaying the used code `AC` at time 1000 (well before
its expiry) yields 400 `invalid_grant` and leaves the store unchanged. -/
theorem token_stale_code_invalid_grant_witness :
    token demoCfg ⟨[aliceBind], [], [usedPending], [], [], [], []⟩ [] 1000
      { grant_type := "authorization_code", code := some "AC",
        client_id := some "demo", client_secret := some "s3cret" }
      ⟨"AT2", "RT2"⟩ =
      (.err 400 "invalid_grant" "Invalid or expired authorization code",
       ⟨[aliceBind], [], [usedPending], [], [], [], []⟩, [1000]) :=
  token_stale_code_invalid_grant demoCfg _ [] 1000 _ ⟨"AT2", "RT2"⟩ "demo" "AC"
    (by decide) (by decide) (by decide) (by decide) (by decide) (by decide)
    (by decide)

/-! ## C3 — client-secret checking at `/token` -/

/-- C3 counterexample: a `/token` request that presents *no*
`client_secret` at all is not rejected as `invalid_client` — it sails
past client authentication (here all the way to
`unsupported_grant_type`), because `validate_client` only compares the
secret when one was presented (`provider.py` 81-83: `if client_secret
is not None`).  The registered client's configured secret is `s3cret`,
and nothing equal to it was presented, yet the answer is not 401. -/
theorem token_no_secret_not_rejected :
    (token demoCfg DB.empty [] 1000
      { grant_type := "bogus", client_id := some "demo", client_secret := none }
      ⟨"AT", "RT"⟩).1 = .err 400 "unsupported_grant_type" "bogus" ∧
    demoClient.client_secret = "s3cret" ∧
    (validate_client demoCfg "demo" none).1 = true := by
  decide

/-- C3 amended: whenever a `client_secret` *is* presented (by form
field or Basic auth), the request is rejected as `invalid_client`
(HTTP 401) exactly when the presented secret differs from the
registered client's configured secret; a request presenting no secret
skips the comparison entirely. -/
theorem token_presented_secret_checked
    (cfg : Config) (db : DB) (bucket : List Int) (now : Int)
    (req : TokenRequest) (fresh : FreshTokens) (cid s : String)
    (c : OAuthClient)
    (hrl : (rateLimitCheck bucket tokenRateRule now).1.1 = true)
    (hcid : (requestCredentials req).1 = some cid)
    (hcs : (requestCredentials req).2 = some s)
    (hfind : cfg.oauth_clients.find? (·.client_id == cid) = some c) :
    ((token cfg db bucket now req fresh).1 =
      .err 401 "invalid_client" "Client authentication failed") ↔
      s ≠ c.client_secret := by
  rcases hb : rateLimitCheck bucket tokenRateRule now with ⟨⟨allowed, retry⟩, bucket'⟩
  rw [hb] at hrl
  simp only at hrl
  subst hrl
  rcases hc : requestCredentials req with ⟨cidO, csO⟩
  rw [hc] at hcid hcs
  simp only at hcid hcs
  subst hcid
  subst hcs
  by_cases hsec : s = c.client_secret
  · have hv : validate_client cfg cid (some s) = (true, some c, none) := by
      simp [validate_client, hfind, hsec]
    constructor
    · intro hres
      exfalso
      revert hres
      simp only [token, hb, hc, hv]
      repeat' split
      all_goals simp
    · intro hne
      exact absurd hsec hne
  · have hv : validate_client cfg cid (some s) =
        (false, none, some "invalid_client") := by
      simp [validate_client, hfind, beq_eq_false_iff_ne.mpr hsec]
    simp [token, hb, hc, hv, hsec]

/-! ## C2 — the `is_used` mark is not checked for effect -/

/-- C2 counterexample: the mark step is *not* checked for effect and
cannot fail when the precondition is stale, because
`mark_pending_auth_used` updates `WHERE id=?` only and the handler
discards its boolean (`oauth_routes.py` 518 ignores the return value).
Two interleaved exchanges of the same code `AC` both look the row up
before either writes; after request 1 commits, the row is already
`is_used = true` while request 2 sits past its lookup — its
precondition is stale — yet request 2 also completes with a minted
`TokenResponse`, and two `OAuthToken` rows end up persisted for the one
code. -/
theorem token_mark_not_checked :
    (c2Run (c2Sched.take 5)).shared.db.pending_auths.map (·.is_used) = [true] ∧
    (c2Run (c2Sched.take 5)).phase2 = .acChecked "demo" approvedPending ∧
    (c2Run c2Sched).phase1.isDoneOk = true ∧
    (c2Run c2Sched).phase2.isDoneOk = true ∧
    (c2Run c2Sched).shared.db.oauth_tokens.length = 2 := by
  decide

/-- C2 amended: once an `authorization_code` exchange is past its
single validity-enforcing lookup, nothing re-checks `is_used`: from the
post-lookup control point, whatever the pending row's current state
(including already marked used by a concurrent exchange), the handler
always completes with a `TokenResponse` and persists one more
`OAuthToken` row — the mark update's affected-row result is ignored, so
a stale precondition never causes a rejection. -/
theorem token_mark_step_never_rejects
    (cfg : Config) (st : TokShared) (now : Int) (req : TokenRequest)
    (fresh : FreshTokens) (cid : String) (pending : PendingAuth)
    (bind_user : BindUser)
    (hbu : get_bind_user_by_uin st.db pending.uin = some bind_user) :
    (tokRunFrom cfg now req fresh 3 (.acChecked cid pending) st).1.isDoneOk =
      true ∧
    (tokRunFrom cfg now req fresh 3
        (.acChecked cid pending) st).2.db.oauth_tokens.length =
      st.db.oauth_tokens.length + 1 := by
  simp [tokRunFrom, tokStep, hbu, mark_pending_auth_used, create_oauth_token,
    TokPhase.isDoneOk]

/-- C2 amended witness: from the post-lookup point with the row
*already used* (stale precondition), the exchange still completes and
persists a second token row. -/
theorem token_mark_step_never_rejects_witness :
    (tokRunFrom demoCfg 1000 acRequest ⟨"A1", "R1"⟩ 3
        (.acChecked "demo" approvedPending)
        ⟨⟨[aliceBind], [], [usedPending], [], [], [], []⟩, [1000]⟩).1.isDoneOk =
      true ∧
    (tokRunFrom demoCfg 1000 acRequest ⟨"A1", "R1"⟩ 3
        (.acChecked "demo" approvedPending)
        ⟨⟨[aliceBind], [], [usedPending], [], [], [], []⟩,
         [1000]⟩).2.db.oauth_tokens.length = 0 + 1 :=
  token_mark_step_never_rejects demoCfg _ 1000 acRequest ⟨"A1", "R1"⟩ "demo"
    approvedPending aliceBind (by decide)

/-- C3 amended witness: presenting the wrong secret for the registered
client is rejected as `invalid_client`. -/
theorem token_presented_secret_checked_witness :
    ((token demoCfg DB.empty [] 1000
        { grant_type := "authorization_code", client_id := some "demo",
          client_secret := some "wrong" } ⟨"AT", "RT"⟩).1 =
      .err 401 "invalid_client" "Client authentication failed") ↔
      "wrong" ≠ demoClient.client_secret :=
  token_presented_secret_checked demoCfg DB.empty [] 1000 _ ⟨"AT", "RT"⟩
    "demo" "wrong" demoClient (by decide) (by decide) (by decide) (by decide)

/-! ## C5 — the `auth` claim race -/

/-- C5 counterexample: the claim transition (`handlers.py` 336-340) is
`UPDATE pending_auth SET uin=?, bind_user_id=? WHERE id=?` — its
`WHERE` names only the primary key, with no guard on the prior
`uin = 0` state, so it cannot affect 0 rows when the precondition is
stale.  Under the schedule where both bound callers read the unclaimed
row before either writes, *both* claims succeed: both callers receive
the approved reply, the second caller's claim silently overwrites the
first's (`uin` ends up 10002), contradicting "exactly one caller's
claim succeeds". -/
theorem auth_claim_race_both_succeed :
    (c5Run [true, true, false, false, true, true, true, false, false,
        false]).phase1.isDoneApproved = true ∧
    (c5Run [true, true, false, false, true, true, true, false, false,
        false]).phase2.isDoneApproved = true ∧
    (c5Run [true, true, false, false, true, true, true, false, false,
        false]).db.pending_auths.map (·.uin) = [10002] := by
  decide

/-- C5 amended: the claim transition has no prior-state guard, so under
interleaving both concurrent claims can succeed (the counterexample);
only when the two `auth` commands are serialized does exactly one
succeed — the first caller gets the approved reply, and the second is
rejected (its lookup no longer finds a valid row once the code is
approved, yielding the invalid-or-expired reply). -/
theorem auth_claim_serialized
    (cfg : Config) (db : DB) (now : Int) (uidA uidB : Int) (code : String)
    (buA buB : BindUser) (r : PendingAuth)
    (hA : get_bind_user_by_uin db uidA = some buA)
    (hB0 : get_bind_user_by_uin db uidB = some buB)
    (hr : r ∈ db.pending_auths) (hcode : r.verification_code = pyUpper code)
    (huniq : ∀ p ∈ db.pending_auths, p.verification_code = pyUpper code → p = r)
    (hunclaimed : r.uin = 0) (hused : r.is_used = false)
    (happr : r.is_approved = false) (hexp : now < r.expires_at) :
    (handle_auth cfg db now uidA [code]).1 =
      .approved (clientDisplayName cfg r.client_id) r.scope ∧
    (handle_auth cfg (handle_auth cfg db now uidA [code]).2 now uidB
        [code]).1 = .invalidOrExpired := by
  have hlook : get_pending_auth_by_code db (pyUpper code) now = some r := by
    rw [get_pending_auth_by_code]
    apply find?_eq_some_of_unique hr
    · simp [hcode, hused, happr, hexp]
    · intro x hx hpx
      simp only [Bool.and_eq_true, beq_iff_eq] at hpx
      exact huniq x hx hpx.1
  have hrun : handle_auth cfg db now uidA [code] =
      approveAndLog cfg (claim_pending_auth db r.id uidA buA.id) now uidA r := by
    simp [handle_auth, hA, hlook, hunclaimed]
  have hbusers : (approveAndLog cfg (claim_pending_auth db r.id uidA buA.id)
      now uidA r).2.bind_users = db.bind_users := by
    simp [approveAndLog, create_authorization_log, approve_pending_auth,
      claim_pending_auth]
  have hpend : (approveAndLog cfg (claim_pending_auth db r.id uidA buA.id)
      now uidA r).2.pending_auths =
      (db.pending_auths.map fun p =>
        if p.id == r.id then { p with uin := uidA, bind_user_id := buA.id }
        else p).map fun p =>
          if p.id == r.id then { p with is_approved := true } else p := by
    simp [approveAndLog, create_authorization_log, approve_pending_auth,
      claim_pending_auth]
  constructor
  · rw [hrun]
    simp [approveAndLog]
  · rw [hrun]
    have hBbu : get_bind_user_by_uin (approveAndLog cfg
        (claim_pending_auth db r.id uidA buA.id) now uidA r).2 uidB =
        some buB := by
      rw [get_bind_user_by_uin, hbusers]
      rw [get_bind_user_by_uin] at hB0
      exact hB0
    have hBlook : get_pending_auth_by_code (approveAndLog cfg
        (claim_pending_auth db r.id uidA buA.id) now uidA r).2
        (pyUpper code) now = none := by
      rw [get_pending_auth_by_code]
      apply List.find?_eq_none.mpr
      intro p hp
      rw [hpend] at hp
      rcases List.mem_map.mp hp with ⟨q, hq0, rfl⟩
      rcases List.mem_map.mp hq0 with ⟨q0, hq00, rfl⟩
      by_cases hk : q0.verification_code = pyUpper code
      · have hq0r : q0 = r := huniq q0 hq00 hk
        subst hq0r
        simp
      · by_cases hid : (q0.id == r.id) = true
        · simp [hid, hk]
        · simp only [Bool.not_eq_true] at hid
          simp [hid, hk]
    simp [handle_auth, hBbu, hBlook]

/-- C5 amended witness: on the concrete race store, Alice's serialized
`auth` approves and Bob's subsequent one is rejected. -/
theorem auth_claim_serialized_witness :
    (handle_auth demoCfg c5Db 1000 10001 ["K7M3Q2"]).1 =
      .approved (clientDisplayName demoCfg unclaimedPending.client_id)
        unclaimedPending.scope ∧
    (handle_auth demoCfg (handle_auth demoCfg c5Db 1000 10001 ["K7M3Q2"]).2
        1000 10002 ["K7M3Q2"]).1 = .invalidOrExpired :=
  auth_claim_serialized demoCfg c5Db 1000 10001 10002 "K7M3Q2" aliceBind
    bobBind unclaimedPending (by decide) (by decide) (by decide) (by decide)
    (by decide) (by decide) (by decide) (by decide) (by decide)

/-! ## C7 — verification-code acceptance window -/

/-- C7: for a caller with an active binding, the `auth` command accepts
the presented verification code — i.e. does *not* answer with the
invalid-or-expired reply — exactly when the code's pending row
satisfies `¬is_used ∧ ¬is_approved ∧ now < expires_at` (the `valid_only`
predicate of `get_pending_auth_by_code`); in particular at the exact
boundary `expires_at = now` the code is rejected with that reply.
(When the window holds, the handler proceeds to the ownership check and
replies either `approved` or `not yours` — never invalid-or-expired.) -/
theorem auth_code_acceptance
    (cfg : Config) (db : DB) (now : Int) (user_id : Int) (code : String)
    (bu : BindUser) (r : PendingAuth)
    (hbound : get_bind_user_by_uin db user_id = some bu)
    (hr : r ∈ db.pending_auths) (hcode : r.verification_code = pyUpper code)
    (huniq : ∀ p ∈ db.pending_auths, p.verification_code = pyUpper code → p = r) :
    ((handle_auth cfg db now user_id [code]).1 = .invalidOrExpired ↔
      ¬(r.is_used = false ∧ r.is_approved = false ∧ now < r.expires_at)) ∧
    (r.expires_at = now →
      (handle_auth cfg db now user_id [code]).1 = .invalidOrExpired) := by
  have hmain : (handle_auth cfg db now user_id [code]).1 = .invalidOrExpired ↔
      ¬(r.is_used = false ∧ r.is_approved = false ∧ now < r.expires_at) := by
    by_cases hP : r.is_used = false ∧ r.is_approved = false ∧ now < r.expires_at
    · have hlook : get_pending_auth_by_code db (pyUpper code) now = some r := by
        rw [get_pending_auth_by_code]
        apply find?_eq_some_of_unique hr
        · simp [hcode, hP.1, hP.2.1, hP.2.2]
        · intro x hx hpx
          simp only [Bool.and_eq_true, beq_iff_eq] at hpx
          exact huniq x hx hpx.1
      simp only [handle_auth, hbound, hlook]
      constructor
      · intro hres
        exfalso
        revert hres
        split
        · simp [approveAndLog]
        · split
          · simp
          · simp [approveAndLog]
      · intro hnp
        exact absurd hP hnp
    · have hlook : get_pending_auth_by_code db (pyUpper code) now = none := by
        rw [get_pending_auth_by_code]
        apply List.find?_eq_none.mpr
        intro p hp
        by_cases hk : p.verification_code = pyUpper code
        · have hpr : p = r := huniq p hp hk
          subst hpr
          intro hcon
          simp only [hk, beq_self_eq_true, Bool.true_and, Bool.not_true,
            Bool.false_or, Bool.and_eq_true, Bool.not_eq_true',
            decide_eq_true_eq] at hcon
          exact hP ⟨hcon.1.1, hcon.1.2, hcon.2⟩
        · simp [beq_iff_eq, hk]
      simp [handle_auth, hbound, hlook, hP]
  refine ⟨hmain, fun hb => hmain.mpr fun hcon => ?_⟩
  rw [hb] at hcon
  exact lt_irrefl now hcon.2.2

/-- C7 witness: at exactly `now = expires_at = 2000`, the (lower-cased,
then upper-cased) code `k7m3q2` of an otherwise pristine row is
rejected with the invalid-or-expired reply. -/
theorem auth_code_acceptance_witness :
    ((handle_auth demoCfg ⟨[aliceBind], [], [unclaimedPending], [], [], [], []⟩
        2000 10001 ["k7m3q2"]).1 = .invalidOrExpired ↔
      ¬(unclaimedPending.is_used = false ∧
        unclaimedPending.is_approved = false ∧
        (2000 : Int) < unclaimedPending.expires_at)) ∧
    (unclaimedPending.expires_at = 2000 →
      (handle_auth demoCfg ⟨[aliceBind], [], [unclaimedPending], [], [], [], []⟩
        2000 10001 ["k7m3q2"]).1 = .invalidOrExpired) :=
  auth_code_acceptance demoCfg _ 2000 10001 "k7m3q2" aliceBind
    unclaimedPending (by decide) (by decide) (by decide) (by decide)

/-! ## C8 — unbind username matching -/

/-- C8 counterexample: the handler does *not* consult
`preferred_username`, `email` and `sub` separately.  It coalesces
`preferred_username or email or sub` into one display name
(`handlers.py` 267) and accepts only a case-insensitive match of that
single name or an exact match of `sub`.  Alice's binding has
`preferred_username = "alice"` and `email = "a@x"`; by the claim,
`unbind a@x` matches the email case-insensitively and must create a
PendingUnbind — but the code replies with the username-mismatch
message. -/
theorem unbind_email_not_consulted :
    (handle_unbind ⟨[aliceBind], [], [], [], [], [], []⟩ 1000 10001 "private"
        10001 ["a@x"]).1 = .mismatch "alice" ∧
    aliceBind.email = some "a@x" := by
  decide

/-- C8 amended: with an active binding, `unbind <username>` (username
not `confirm`) is rejected with the mismatch reply iff the argument
differs case-insensitively from the coalesced bound name
(`preferred_username or email or sub`) *and* differs exactly from
`sub`; on a match, the prompt reply is sent and a fresh PendingUnbind
with a 300-second TTL for the caller is persisted. -/
theorem unbind_match_rule
    (db : DB) (now : Int) (user_id : Int) (mt : String) (sid : Int)
    (username : String) (bu : BindUser)
    (hbound : get_bind_user_by_uin db user_id = some bu)
    (hnc : pyLower username ≠ "confirm") :
    ((handle_unbind db now user_id mt sid [username]).1 =
      .mismatch (pyOrStr bu.preferred_username (pyOrStr bu.email bu.sub)) ↔
      (pyLower username ≠
        pyLower (pyOrStr bu.preferred_username (pyOrStr bu.email bu.sub)) ∧
       username ≠ bu.sub)) ∧
    ((pyLower username =
        pyLower (pyOrStr bu.preferred_username (pyOrStr bu.email bu.sub)) ∨
      username = bu.sub) →
      (handle_unbind db now user_id mt sid [username]).1 =
        .confirmPrompt username ∧
      ∃ p ∈ (handle_unbind db now user_id mt sid [username]).2.pending_unbinds,
        p.uin = user_id ∧ p.username = username ∧ p.bind_user_id = bu.id ∧
        p.expires_at = now + 300 ∧ p.is_processed = false) := by
  have hcf : (pyLower username == "confirm") = false := beq_eq_false_iff_ne.mpr hnc
  by_cases hm : pyLower username =
      pyLower (pyOrStr bu.preferred_username (pyOrStr bu.email bu.sub)) ∨
      username = bu.sub
  · have hcond : (pyLower username !=
        pyLower (pyOrStr bu.preferred_username (pyOrStr bu.email bu.sub)) &&
        username != bu.sub) = false := by
      rcases hm with h | h <;> simp [h]
    constructor
    · rcases hpd : get_pending_unbind_by_uin db user_id now with _ | p0 <;>
        · simp [handle_unbind, hbound, hcf, hcond, hpd, hm]
          tauto
    · intro _
      rcases hpd : get_pending_unbind_by_uin db user_id now with _ | p0 <;>
        · simp [handle_unbind, hbound, hcf, hcond, hpd,
            create_pending_unbind, mark_pending_unbind_processed]
          refine ⟨_, Or.inr rfl, ?_, ?_, ?_, ?_, ?_⟩ <;> rfl
  · push_neg at hm
    have hcond : (pyLower username !=
        pyLower (pyOrStr bu.preferred_username (pyOrStr bu.email bu.sub)) &&
        username != bu.sub) = true := by
      simp [hm.1, hm.2]
    constructor
    · rcases hpd : get_pending_unbind_by_uin db user_id now with _ | p0 <;>
        simp [handle_unbind, hbound, hcf, hcond, hpd, hm.1, hm.2]
    · intro hcon
      rcases hcon with h | h
      · exact absurd h hm.1
      · exact absurd h hm.2

/-- C8 amended witness: `unbind alice` matches Alice's coalesced bound
name, is not a mismatch, and persists the 5-minute pending unbind. -/
theorem unbind_match_rule_witness :
    ((handle_unbind ⟨[aliceBind], [], [], [], [], [], []⟩ 1000 10001 "private"
        10001 ["alice"]).1 =
      .mismatch (pyOrStr aliceBind.preferred_username
        (pyOrStr aliceBind.email aliceBind.sub)) ↔
      (pyLower "alice" ≠
        pyLower (pyOrStr aliceBind.preferred_username
          (pyOrStr aliceBind.email aliceBind.sub)) ∧
       ("alice" : String) ≠ aliceBind.sub)) ∧
    ((pyLower "alice" =
        pyLower (pyOrStr aliceBind.preferred_username
          (pyOrStr aliceBind.email aliceBind.sub)) ∨
      ("alice" : String) = aliceBind.sub) →
      (handle_unbind ⟨[aliceBind], [], [], [], [], [], []⟩ 1000 10001 "private"
        10001 ["alice"]).1 = .confirmPrompt "alice" ∧
      ∃ p ∈ (handle_unbind ⟨[aliceBind], [], [], [], [], [], []⟩ 1000 10001
          "private" 10001 ["alice"]).2.pending_unbinds,
        p.uin = 10001 ∧ p.username = "alice" ∧ p.bind_user_id = aliceBind.id ∧
        p.expires_at = 1000 + 300 ∧ p.is_processed = false) :=
  unbind_match_rule ⟨[aliceBind], [], [], [], [], [], []⟩ 1000 10001 "private"
    10001 "alice" aliceBind (by decide) (by decide)

/-! ## C9 — userinfo claim projection -/

/-- `dmem` of the empty dict. -/
theorem dmem_nil (k : String) : dmem [] k = false := rfl

/-- `dmem` on a cons cell. -/
theorem dmem_cons (a : String × Val) (t : Dict) (k : String) :
    dmem (a :: t) k = (a.1 == k || dmem t k) := List.any_cons

/-- Assignment's effect on key membership. -/
theorem dmem_dset (d : Dict) (k1 k : String) (v : Val) :
    dmem (dset d k1 v) k = (dmem d k || k1 == k) := by
  rw [dset]
  by_cases hc : dmem d k1 = true
  · rw [if_pos hc]
    have hmap : ∀ d' : Dict,
        dmem (d'.map fun p => if p.1 == k1 then (k1, v) else p) k = dmem d' k := by
      intro d'
      induction d' with
      | nil => rfl
      | cons a t ih =>
        rw [List.map_cons, dmem_cons, dmem_cons, ih]
        congr 1
        by_cases ha : (a.1 == k1) = true
        · rw [if_pos ha]
          rw [show a.1 = k1 from beq_iff_eq.mp ha]
        · rw [if_neg ha]
    rw [hmap]
    by_cases hk : k1 = k
    · subst hk
      simp [hc]
    · simp [beq_eq_false_iff_ne.mpr hk]
  · rw [if_neg hc]
    show (d ++ [(k1, v)]).any (·.1 == k) = _
    rw [List.any_append]
    simp [dmem]

/-- Update's effect on key membership. -/
theorem dmem_dupdate (d e : Dict) (k : String) :
    dmem (dupdate d e) k = (dmem d k || dmem e k) := by
  induction e generalizing d with
  | nil => simp [dupdate, dmem]
  | cons a t ih =>
    rw [show dupdate d (a :: t) = dupdate (dset d a.1 a.2) t from rfl, ih,
      dmem_dset, dmem_cons, Bool.or_assoc]

/-- A key outside a dict has no value. -/
theorem dget_eq_none_of_not_dmem (d : Dict) (k : String)
    (h : dmem d k = false) : dget d k = none := by
  rw [dmem] at h
  rw [dget, List.find?_eq_none.mpr (List.any_eq_false.mp h)]
  rfl

/-- The extra-data projection loop of `get_user_claims` is the identity
when the extracted extra dict is empty. -/
theorem claims_fold_nil (scopes : List String) (claims : Dict) :
    scopes.foldl
      (fun claims s =>
        if dmem [] s && !dmem claims s then dset claims s (dgetD [] s)
        else claims) claims = claims := by
  induction scopes generalizing claims with
  | nil => rfl
  | cons a t ih =>
    rw [List.foldl_cons, if_neg (by simp [dmem])]
    exact ih claims

/-- Key analysis of `get_user_claims` over the flat dicts the routes
build: when the `email` and `preferred_username` keys are present and
there is no `extra_data` key, the emitted claim keys are exactly `uin`
iff the `uin` scope token is present, `sub` iff `openid`, `email` iff
`email`, `preferred_username` iff `profile` or `preferred_username`,
and nothing else. -/
theorem get_user_claims_keys (scope : String) (d : Dict)
    (hde : dmem d "email" = true) (hdp : dmem d "preferred_username" = true)
    (hdx : dget d "extra_data" = none) :
    (dmem (get_user_claims scope d) "uin" = (pySplit scope).contains "uin") ∧
    (dmem (get_user_claims scope d) "sub" = (pySplit scope).contains "openid") ∧
    (dmem (get_user_claims scope d) "email" = (pySplit scope).contains "email") ∧
    (dmem (get_user_claims scope d) "preferred_username" =
      ((pySplit scope).contains "profile" ||
       (pySplit scope).contains "preferred_username")) ∧
    (∀ k, dmem (get_user_claims scope d) k = true →
      "uin" = k ∨ "sub" = k ∨ "email" = k ∨ "preferred_username" = k) := by
  by_cases h1 : "uin" ∈ pySplit scope <;>
    by_cases h2 : "openid" ∈ pySplit scope <;>
    by_cases h3 : "email" ∈ pySplit scope <;>
    by_cases h4 : "profile" ∈ pySplit scope <;>
    by_cases h5 : "preferred_username" ∈ pySplit scope <;>
    · refine ⟨?_, ?_, ?_, ?_, ?_⟩ <;>
        simp [get_user_claims, hdx, claims_fold_nil, h1, h2, h3, h4, h5,
          hde, hdp, dmem_dset, dmem_nil] <;>
        tauto

/-- C9 corrected: the userinfo endpoint's claim set for a valid bearer
token of a bound user (whose `extra_data` has no literal `extra_data`
key) contains `uin` iff the `uin` scope token was granted (not
`openid`), `sub` iff `openid`, `email` iff `email` (never
`email_verified`), and `preferred_username` iff `profile` or
`preferred_username` (never `nickname` or `name`) — and *nothing
else*: in particular no `extra_data` key is ever projected, because the
route merges `extra_data` flat into `user_data` while
`get_user_claims` reads a literal `"extra_data"` key that the route
never passes. -/
theorem userinfo_claim_projection
    (db : DB) (now : Int) (tokenStr : String) (trow : OAuthToken)
    (bu : BindUser)
    (htok : get_token_by_access_token db tokenStr now = some trow)
    (hbu : get_bind_user_by_uin db trow.uin = some bu)
    (hx : ∀ p ∈ bu.extra_data.getD [], p.1 ≠ "extra_data") :
    userinfo db now (some ("Bearer " ++ tokenStr)) =
      .ok (get_user_claims trow.scope (buildUserData bu)) ∧
    (dmem (get_user_claims trow.scope (buildUserData bu)) "uin" =
      (pySplit trow.scope).contains "uin") ∧
    (dmem (get_user_claims trow.scope (buildUserData bu)) "sub" =
      (pySplit trow.scope).contains "openid") ∧
    (dmem (get_user_claims trow.scope (buildUserData bu)) "email" =
      (pySplit trow.scope).contains "email") ∧
    (dmem (get_user_claims trow.scope (buildUserData bu)) "preferred_username" =
      ((pySplit trow.scope).contains "profile" ||
       (pySplit trow.scope).contains "preferred_username")) ∧
    (∀ k, dmem (get_user_claims trow.scope (buildUserData bu)) k = true →
      "uin" = k ∨ "sub" = k ∨ "email" = k ∨ "preferred_username" = k) := by
  have hsw : pyStartsWith ("Bearer " ++ tokenStr) "Bearer " = true := by
    rw [pyStartsWith, String.data_append]
    exact List.isPrefixOf_iff_prefix.mpr (List.prefix_append _ _)
  have hdr : pyDrop ("Bearer " ++ tokenStr) 7 = tokenStr := by
    rw [pyDrop, String.data_append,
      show (7 : Nat) = "Bearer ".data.length from rfl, List.drop_left]
  have hxe : dmem (bu.extra_data.getD []) "extra_data" = false := by
    rw [dmem]
    exact List.any_eq_false.mpr fun p hp => by simpa using hx p hp
  have hde : dmem (buildUserData bu) "email" = true := by
    rw [buildUserData, dmem_dupdate]
    simp [dmem_cons, dmem_nil]
  have hdp : dmem (buildUserData bu) "preferred_username" = true := by
    rw [buildUserData, dmem_dupdate]
    simp [dmem_cons, dmem_nil]
  have hdx : dget (buildUserData bu) "extra_data" = none := by
    apply dget_eq_none_of_not_dmem
    rw [buildUserData, dmem_dupdate, hxe]
    simp [dmem_cons, dmem_nil]
  refine ⟨?_, get_user_claims_keys trow.scope (buildUserData bu) hde hdp hdx⟩
  simp [userinfo, hsw, hdr, htok, hbu]

/-- C9 counterexample: for a valid token with scope `openid email`, the
§4.6 table read by the claim demands `uin` (since `openid ∈ scope`) and
`email_verified` (since `email ∈ scope`); the endpoint returns exactly
`sub` and `email` — no `uin`, no `email_verified`. -/
theorem userinfo_missing_spec_claims :
    userinfo ⟨[aliceBind], [], [], [], [c9Token], [], []⟩ 1000
        (some "Bearer AT") =
      .ok [("sub", .vStr "u-42"), ("email", .vStr "a@x")] ∧
    (pySplit c9Token.scope).contains "openid" = true ∧
    (pySplit c9Token.scope).contains "email" = true ∧
    dmem [("sub", Val.vStr "u-42"), ("email", Val.vStr "a@x")] "uin" = false ∧
    dmem [("sub", Val.vStr "u-42"), ("email", Val.vStr "a@x")]
      "email_verified" = false := by
  decide

/-- C9 amended witness: the projection theorem applied to Alice's
concrete store and token. -/
theorem userinfo_claim_projection_witness :
    userinfo ⟨[aliceBind], [], [], [], [c9Token], [], []⟩ 1000
        (some ("Bearer " ++ "AT")) =
      .ok (get_user_claims c9Token.scope (buildUserData aliceBind)) :=
  (userinfo_claim_projection ⟨[aliceBind], [], [], [], [c9Token], [], []⟩
    1000 "AT" c9Token aliceBind (by decide) (by decide) (by decide)).1

/-! ## C6 — refresh-token rotation -/

/-- A dead refresh token stays dead across `mark_pending_auth_used`
(which never touches the token table). -/
theorem deadRefresh_mark {db : DB} {rt : String} (pid : Nat)
    (h : deadRefresh db rt) :
    deadRefresh (mark_pending_auth_used db pid).2 rt :=
  fun t ht hrt => h t ht hrt

/-- A dead refresh token stays dead across `revoke_token` (which only
turns `is_revoked` on). -/
theorem deadRefresh_revoke {db : DB} {rt : String} (tid : Nat)
    (h : deadRefresh db rt) : deadRefresh (revoke_token db tid).2 rt := by
  intro t ht hrt
  rcases List.mem_map.mp ht with ⟨q, hq, rfl⟩
  by_cases hid : (q.id == tid) = true
  · simp [hid]
  · rw [if_neg hid] at hrt ⊢
    exact h q hq hrt

/-- A dead refresh token stays dead across `create_oauth_token`, as
long as the inserted row carries a different refresh token. -/
theorem deadRefresh_create {db : DB} {rt : String} {now : Int}
    {at2 cid : String} {buid : Nat} {uin : Int} {scope : String} {exp : Int}
    {rtok : Option String} {rexp : Option Int} (hne : rtok ≠ some rt)
    (h : deadRefresh db rt) :
    deadRefresh (create_oauth_token db now at2 cid buid uin scope exp rtok
      rexp).1 rt := by
  intro t ht hrt
  rcases List.mem_append.mp ht with hmem | hmem
  · exact h t hmem hrt
  · rcases List.mem_singleton.mp hmem with rfl
    exact absurd hrt hne

/-- A dead refresh token is invisible to the valid-refresh lookup. -/
theorem refresh_lookup_none_of_dead (db : DB) (rt : String) (now : Int)
    (h : deadRefresh db rt) : get_token_by_refresh_token db rt now = none := by
  rw [get_token_by_refresh_token]
  apply List.find?_eq_none.mpr
  intro t ht
  by_cases hrt : t.refresh_token = some rt
  · simp [hrt, h t ht hrt]
  · simp [hrt]

/-- One `/token` request, whatever the grant and outcome, keeps a dead
refresh token dead, as long as its fresh random draw is not that
token. -/
theorem token_preserves_deadRefresh (cfg : Config) (db : DB)
    (bucket : List Int) (now : Int) (req : TokenRequest)
    (fresh : FreshTokens) (rt : String) (hfr : fresh.refresh_token ≠ rt)
    (h : deadRefresh db rt) :
    deadRefresh (token cfg db bucket now req fresh).2.1 rt := by
  have hner : ∀ (uin : Int) (cid scope : String) (ud : Dict),
      (create_token_response cfg uin cid scope ud fresh now).refresh_token ≠
        some rt := by
    intro uin cid scope ud
    simp [create_token_response]
    exact hfr
  unfold token
  repeat' (first | split | dsimp only)
  all_goals
    first
    | exact h
    | exact deadRefresh_revoke _ h
    | exact deadRefresh_create (hner _ _ _ _) (deadRefresh_mark _ h)
    | exact deadRefresh_create (hner _ _ _ _) (deadRefresh_revoke _ h)

/-- A dead refresh token stays dead across any sequence of `/token`
requests whose fresh draws avoid it. -/
theorem runSeq_preserves_deadRefresh (cfg : Config) (rt : String) :
    ∀ (steps : List (TokenRequest × FreshTokens × Int × List Int)) (db : DB),
      (∀ x ∈ steps, (x.2.1 : FreshTokens).refresh_token ≠ rt) →
      deadRefresh db rt → deadRefresh (runSeq cfg db steps) rt := by
  intro steps
  induction steps with
  | nil => intro db _ h; exact h
  | cons x rest ih =>
    intro db hsteps h
    rcases x with ⟨req, fresh, now, bucket⟩
    exact ih _ (fun y hy => hsteps y (List.mem_cons_of_mem _ hy))
      (token_preserves_deadRefresh cfg db bucket now req fresh rt
        (hsteps _ (List.mem_cons_self _ _)) h)

/-- C6: a valid `refresh_token` grant for `R1` (rate limit passed,
client authenticated and matching the token row, row unrevoked and
unexpired, unique per the `oauth_token.refresh_token` unique index,
bound user active, fresh draws distinct from `R1`) mints a
`TokenResponse` whose refresh token is the fresh draw `≠ R1`, leaves
every row holding `R1` revoked, persists a new unrevoked row holding
the new refresh token — and every subsequent `/token` request
presenting `R1` as a refresh token (after any further requests whose
fresh draws avoid `R1`) is rejected with `invalid_grant`. -/
theorem refresh_rotation
    (cfg : Config) (db : DB) (bucket : List Int) (now : Int)
    (req : TokenRequest) (fresh : FreshTokens) (cid R1 : String)
    (tok : OAuthToken) (bu : BindUser)
    (hrl : (rateLimitCheck bucket tokenRateRule now).1.1 = true)
    (hcid : (requestCredentials req).1 = some cid)
    (hvalid : (validate_client cfg cid (requestCredentials req).2).1 = true)
    (hgrant : req.grant_type = "refresh_token")
    (hrt : req.refresh_token = some R1) (hR1 : R1 ≠ "")
    (htok : tok ∈ db.oauth_tokens) (htokrt : tok.refresh_token = some R1)
    (huniq : ∀ t ∈ db.oauth_tokens, t.refresh_token = some R1 → t = tok)
    (hnr : tok.is_revoked = false)
    (hexp : ∃ e, tok.refresh_token_expires_at = some e ∧ now < e)
    (hcl : tok.client_id = cid)
    (hbu : get_bind_user_by_uin (revoke_token db tok.id).2 tok.uin = some bu)
    (hfr : fresh.refresh_token ≠ R1) :
    ((token cfg db bucket now req fresh).1 =
      .ok (create_token_response cfg bu.uin cid tok.scope (buildUserData bu)
        fresh now) ∧
     (create_token_response cfg bu.uin cid tok.scope (buildUserData bu)
       fresh now).refresh_token = some fresh.refresh_token ∧
     (create_token_response cfg bu.uin cid tok.scope (buildUserData bu)
       fresh now).refresh_token ≠ some R1) ∧
    deadRefresh (token cfg db bucket now req fresh).2.1 R1 ∧
    (∃ t ∈ (token cfg db bucket now req fresh).2.1.oauth_tokens,
      t.refresh_token = some fresh.refresh_token ∧ t.is_revoked = false) ∧
    (∀ steps, (∀ x ∈ steps, (x.2.1 : FreshTokens).refresh_token ≠ R1) →
      deadRefresh (runSeq cfg (token cfg db bucket now req fresh).2.1 steps)
        R1) ∧
    (∀ (db2 : DB) (bucket2 : List Int) (now2 : Int) (req2 : TokenRequest)
        (fresh2 : FreshTokens) (cid2 : String),
      deadRefresh db2 R1 →
      (rateLimitCheck bucket2 tokenRateRule now2).1.1 = true →
      (requestCredentials req2).1 = some cid2 →
      (validate_client cfg cid2 (requestCredentials req2).2).1 = true →
      req2.grant_type = "refresh_token" → req2.refresh_token = some R1 →
      (token cfg db2 bucket2 now2 req2 fresh2).1 =
        .err 400 "invalid_grant" "Invalid or expired refresh token") := by
  obtain ⟨e, he, hlt⟩ := hexp
  have hlookup : get_token_by_refresh_token db R1 now = some tok := by
    rw [get_token_by_refresh_token]
    apply find?_eq_some_of_unique htok
    · simp [htokrt, hnr, he, hlt]
    · intro x hx hpx
      simp only [Bool.and_eq_true, beq_iff_eq] at hpx
      exact huniq x hx hpx.1
  rcases hb : rateLimitCheck bucket tokenRateRule now with ⟨⟨allowed, retry⟩, bucket'⟩
  rw [hb] at hrl
  simp only at hrl
  subst hrl
  rcases hc : requestCredentials req with ⟨cidO, csO⟩
  rw [hc] at hcid
  simp only at hcid
  subst hcid
  rw [hc] at hvalid
  rcases hv : validate_client cfg cid csO with ⟨valid, copt, eopt⟩
  rw [hv] at hvalid
  simp only at hvalid
  subst hvalid
  have hga : (("refresh_token" : String) == "authorization_code") = false := by
    decide
  have hdead1 : deadRefresh (revoke_token db tok.id).2 R1 := by
    intro t ht hrt2
    rcases List.mem_map.mp ht with ⟨q, hq, rfl⟩
    by_cases hid : (q.id == tok.id) = true
    · simp [hid]
    · rw [if_neg hid] at hrt2 ⊢
      have hq2 := huniq q hq hrt2
      rw [hq2] at hid
      simp at hid
  have hner : (create_token_response cfg bu.uin cid tok.scope
      (buildUserData bu) fresh now).refresh_token ≠ some R1 := by
    simp [create_token_response]
    exact hfr
  have hdead2 : deadRefresh (token cfg db bucket now req fresh).2.1 R1 := by
    simp only [token, hb, hc, hv, hgrant, hga, hrt, hlookup, hcl,
      beq_eq_false_iff_ne.mpr hR1]
    simp only [Bool.not_true, Bool.not_false, if_false, if_true, beq_self_eq_true,
      bne_self_eq_false, ite_false, ite_true]
    simp only [hbu]
    exact deadRefresh_create hner hdead1
  refine ⟨⟨?_, ?_, hner⟩, hdead2, ?_, ?_, ?_⟩
  · simp only [token, hb, hc, hv, hgrant, hga, hrt, hlookup, hcl,
      beq_eq_false_iff_ne.mpr hR1]
    simp only [Bool.not_true, Bool.not_false, if_false, if_true, beq_self_eq_true,
      bne_self_eq_false, ite_false, ite_true]
    simp [hbu]
  · simp [create_token_response]
  · simp only [token, hb, hc, hv, hgrant, hga, hrt, hlookup, hcl,
      beq_eq_false_iff_ne.mpr hR1]
    simp only [Bool.not_true, Bool.not_false, if_false, if_true, beq_self_eq_true,
      bne_self_eq_false, ite_false, ite_true]
    simp only [hbu]
    refine ⟨_, List.mem_append_right _ (List.mem_singleton_self _), ?_, rfl⟩
    simp [create_token_response]
  · intro steps hsteps
    exact runSeq_preserves_deadRefresh cfg R1 steps _ hsteps hdead2
  · intro db2 bucket2 now2 req2 fresh2 cid2 hdead hrl2 hcid2 hvalid2 hg2 hrt2
    have hlook2 : get_token_by_refresh_token db2 R1 now2 = none :=
      refresh_lookup_none_of_dead db2 R1 now2 hdead
    rcases hb2 : rateLimitCheck bucket2 tokenRateRule now2 with
      ⟨⟨allowed2, retry2⟩, bucket2'⟩
    rw [hb2] at hrl2
    simp only at hrl2
    subst hrl2
    rcases hc2 : requestCredentials req2 with ⟨cidO2, csO2⟩
    rw [hc2] at hcid2
    simp only at hcid2
    subst hcid2
    rw [hc2] at hvalid2
    rcases hv2 : validate_client cfg cid2 csO2 with ⟨valid2, copt2, eopt2⟩
    rw [hv2] at hvalid2
    simp only at hvalid2
    subst hvalid2
    simp [token, hb2, hc2, hv2, hg2, hga, hrt2, hlook2,
      beq_eq_false_iff_ne.mpr hR1]

/-- C6 witness: rotating Alice's stored refresh token `RT` at time 1000
succeeds with the fresh pair (`AT2`, `RT2`) and leaves every row
holding `RT` revoked. -/
theorem refresh_rotation_witness :
    ((token demoCfg ⟨[aliceBind], [], [], [], [c9Token], [], []⟩ [] 1000
        { grant_type := "refresh_token", refresh_token := some "RT",
          client_id := some "demo", client_secret := some "s3cret" }
        ⟨"AT2", "RT2"⟩).1 =
      .ok (create_token_response demoCfg aliceBind.uin "demo" c9Token.scope
        (buildUserData aliceBind) ⟨"AT2", "RT2"⟩ 1000) ∧
     (create_token_response demoCfg aliceBind.uin "demo" c9Token.scope
       (buildUserData aliceBind) ⟨"AT2", "RT2"⟩ 1000).refresh_token =
       some "RT2" ∧
     (create_token_response demoCfg aliceBind.uin "demo" c9Token.scope
       (buildUserData aliceBind) ⟨"AT2", "RT2"⟩ 1000).refresh_token ≠
       some "RT") ∧
    deadRefresh (token demoCfg ⟨[aliceBind], [], [], [], [c9Token], [], []⟩
      [] 1000
      { grant_type := "refresh_token", refresh_token := some "RT",
        client_id := some "demo", client_secret := some "s3cret" }
      ⟨"AT2", "RT2"⟩).2.1 "RT" :=
  ⟨(refresh_rotation demoCfg ⟨[aliceBind], [], [], [], [c9Token], [], []⟩ []
      1000
      { grant_type := "refresh_token", refresh_token := some "RT",
        client_id := some "demo", client_secret := some "s3cret" }
      ⟨"AT2", "RT2"⟩ "demo" "RT" c9Token aliceBind (by decide) (by decide)
      (by decide) (by decide) (by decide) (by decide) (by decide) (by decide)
      (by decide) (by decide) ⟨3000, rfl, by decide⟩ (by decide) (by decide)
      (by decide)).1,
   (refresh_rotation demoCfg ⟨[aliceBind], [], [], [], [c9Token], [], []⟩ []
      1000
      { grant_type := "refresh_token", refresh_token := some "RT",
        client_id := some "demo", client_secret := some "s3cret" }
      ⟨"AT2", "RT2"⟩ "demo" "RT" c9Token aliceBind (by decide) (by decide)
      (by decide) (by decide) (by decide) (by decide) (by decide) (by decide)
      (by decide) (by decide) ⟨3000, rfl, by decide⟩ (by decide) (by decide)
      (by decide)).2.1⟩

/-! ## C10 — unconditional uniqueness of `bind_user.uin` / `bind_user.sub` -/

/-- C10: the `bind_user` unique indexes are unconditional (`models.py`
declares `uin` and `sub` `unique=True`, not filtered by `is_active`),
so `create_bind_user` fails with a uniqueness violation as soon as
*any* row — active or deactivated — carries the same `uin` or `sub`;
and the `/callback` handler only screens for an *active* binding, so
after an unbind it passes both screens, reaches the insert, and the
insert fails (the request errors and the store is left unchanged):
the same UIN can never be re-bound. -/
theorem bind_user_never_rebound
    (cfg : Config) (db : DB) (now : Int) (c s : String) (u : UserInfo)
    (pb : PendingBind) (r : BindUser)
    (hc : c ≠ "") (hs : s ≠ "")
    (hpb : get_pending_bind_by_state db s now = some pb)
    (hr : r ∈ db.bind_users) (hruin : r.uin = pb.uin)
    (hnoact : ∀ q ∈ db.bind_users, q.uin = pb.uin → q.is_active = false)
    (hnosub : ∀ q ∈ db.bind_users, q.sub = u.sub → q.is_active = false) :
    (∀ (uin2 : Int) (sub2 : String) (e p : Option String) (x : Option Dict),
      (∃ q ∈ db.bind_users, q.uin = uin2 ∨ q.sub = sub2) →
      create_bind_user db now uin2 sub2 e p x = .error ()) ∧
    get_bind_user_by_uin db pb.uin = none ∧
    oauth_callback cfg db now (some c) (some s) none true (some u) =
      (.uniqueViolation, db) := by
  have hcr : ∀ (uin2 : Int) (sub2 : String) (e p : Option String)
      (x : Option Dict), (∃ q ∈ db.bind_users, q.uin = uin2 ∨ q.sub = sub2) →
      create_bind_user db now uin2 sub2 e p x = .error () := by
    intro uin2 sub2 e p x ⟨q, hq, hcol⟩
    have hany : (db.bind_users.any fun b => b.uin == uin2 || b.sub == sub2) =
        true :=
      List.any_eq_true.mpr ⟨q, hq, by rcases hcol with h | h <;> simp [h]⟩
    rw [create_bind_user, if_pos hany]
  have hbu : get_bind_user_by_uin db pb.uin = none := by
    rw [get_bind_user_by_uin]
    apply List.find?_eq_none.mpr
    intro q hq
    by_cases hqu : q.uin = pb.uin
    · simp [hqu, hnoact q hq hqu]
    · simp [hqu]
  have hbs : get_bind_user_by_sub db u.sub = none := by
    rw [get_bind_user_by_sub]
    apply List.find?_eq_none.mpr
    intro q hq
    by_cases hqs : q.sub = u.sub
    · simp [hqs, hnosub q hq hqs]
    · simp [hqs]
  have hcr2 : ∀ x : Option Dict,
      create_bind_user db now pb.uin u.sub u.email u.preferred_username x =
        .error () :=
    fun x => hcr pb.uin u.sub u.email u.preferred_username x
      ⟨r, hr, Or.inl hruin⟩
  refine ⟨hcr, hbu, ?_⟩
  simp [oauth_callback, pyTruthyS, hc, hs, hpb, hbu, hbs, hcr2]

/-- C10 witness: with only the deactivated row present, the active
screen passes (`none`), yet the callback's insert hits the unique index
and the rebind fails. -/
theorem bind_user_never_rebound_witness :
    (∀ (uin2 : Int) (sub2 : String) (e p : Option String) (x : Option Dict),
      (∃ q ∈ ([aliceUnbound] : List BindUser), q.uin = uin2 ∨ q.sub = sub2) →
      create_bind_user ⟨[aliceUnbound], [rebindPending], [], [], [], [], []⟩
        1000 uin2 sub2 e p x = .error ()) ∧
    get_bind_user_by_uin ⟨[aliceUnbound], [rebindPending], [], [], [], [], []⟩
      rebindPending.uin = none ∧
    oauth_callback demoCfg ⟨[aliceUnbound], [rebindPending], [], [], [], [], []⟩
      1000 (some "XYZ") (some "S") none true
      (some ⟨"u-99", some "a@x", some "alice", []⟩) =
      (.uniqueViolation, ⟨[aliceUnbound], [rebindPending], [], [], [], [], []⟩) :=
  bind_user_never_rebound demoCfg
    ⟨[aliceUnbound], [rebindPending], [], [], [], [], []⟩ 1000 "XYZ" "S"
    ⟨"u-99", some "a@x", some "alice", []⟩ rebindPending aliceUnbound
    (by decide) (by decide) (by decide) (by decide) (by decide) (by decide)
    (by decide)

end OneIDP
